import Mathlib

/-!
Verification of the ledgerjs-hw-app-cardano host-side protocol engine.

Shallow embedding of the repository's source:
  * `src/parsing.ts`  — domain validation (certificates, pool params, margins, relays,
    transactions);
  * `src/Ada.js`      — the legacy chunked streaming protocol (`setTransaction`);
  * `src/Ada.ts`      — the interaction engine (`interact`, `wrapRetryStillInCall`,
    `_send`, public operations).

TypeScript strings are embedded as Lean `String` (character-level work is done on
`String.data`), JavaScript arrays as `List`, nullable/optional values as `Option`,
thrown exceptions as `Except`.  Functions of the repository that live outside the
provided source files (the `Precondition` helpers from utils, error-message tables,
the per-operation interaction bodies) are modelled from the specification; each such
definition carries a doc comment starting with `Modelled from the spec:`.
-/

/-! ## Generic helpers -/

/-- Decidable equality for `Except`, so that concrete runs of the embedded
functions can be checked by `decide`. -/
instance {ε α : Type} [DecidableEq ε] [DecidableEq α] : DecidableEq (Except ε α)
  | .ok a, .ok b => decidable_of_iff (a = b) (by simp)
  | .ok _, .error _ => .isFalse (by simp)
  | .error _, .ok _ => .isFalse (by simp)
  | .error a, .error b => decidable_of_iff (a = b) (by simp)

/-- Sequential map in the `Except` monad; models JavaScript `array.map(f)` where `f`
may throw: elements are processed left to right and the first thrown error aborts. -/
def mapExcept {α β ε : Type} (f : α → Except ε β) : List α → Except ε (List β)
  | [] => .ok []
  | x :: xs => do
      let y ← f x
      let ys ← mapExcept f xs
      return y :: ys

/-- Split a character list at every occurrence of `sep`; models JavaScript
`str.split(sep)` for a one-character separator. -/
def splitOnChar (sep : Char) : List Char → List (List Char)
  | [] => [[]]
  | c :: cs =>
    match splitOnChar sep cs with
    | [] => [[]]
    | g :: gs => if c = sep then [] :: g :: gs else (c :: g) :: gs

/-- Hex-digit test (both cases), as in the hex-string validators. -/
def isHexDigitChar (c : Char) : Bool :=
  c.isDigit || ('a' ≤ c && c ≤ 'f') || ('A' ≤ c && c ≤ 'F')

/-- Numeric value of a hex digit. -/
def hexDigitVal (c : Char) : Nat :=
  if c.isDigit then c.toNat - 48
  else if 'a' ≤ c && c ≤ 'f' then c.toNat - 87
  else if 'A' ≤ c && c ≤ 'F' then c.toNat - 55
  else 0

/-- Modelled from the spec: `hex_to_buf` (utils, not under src/) converts a hex
string to its byte sequence, two hex digits per byte. -/
def hexCharsToBytes : List Char → List Nat
  | h :: l :: rest => (16 * hexDigitVal h + hexDigitVal l) :: hexCharsToBytes rest
  | _ => []

/-- Value of a list of decimal digit characters, or `none` if the list is empty or
contains a non-digit. -/
def decDigitsToNat? (l : List Char) : Option Nat :=
  if l.length > 0 && l.all Char.isDigit then
    some (l.foldl (fun a c => 10 * a + (c.toNat - 48)) 0)
  else none

/-- Value of a decimal string, or `none` when it is not a plain digit string. -/
def decStrToNat? (s : String) : Option Nat := decDigitsToNat? s.data

/-! ## Modelled utility layer (`utils.js` / `Precondition`, not under src/) -/

/-- Modelled from the spec: the maximum lovelace supply used as the bound for ada
amounts ("≤ an explicit maximum (the protocol's max lovelace supply)"). -/
def MAX_LOVELACE_SUPPLY_STR : String := "45000000000000000"

/-- Modelled from the spec: amounts are "bounded unsigned 64-bit decimal strings". -/
def MAX_UINT64_STR : String := "18446744073709551615"

/-- Modelled from the spec: the pool-margin denominator bound; the spec constrains a
margin to a "numerator/denominator pair, both bounded unsigned 64-bit", so the bound
is the unsigned 64-bit maximum. -/
def POOL_MARGIN_DENOMINATOR_MAX_STR : String := MAX_UINT64_STR

/-- Numeric value of the pool-margin denominator bound. -/
def POOL_MARGIN_DENOMINATOR_MAX : Nat := 18446744073709551615

/-- Modelled from the spec: the default message of a precondition check called
without an explicit error message. -/
def PRECONDITION_FAILED_MSG : String := "Precondition failed"

/-- Modelled from the spec: `Precondition.check` throws the given error message when
the condition fails; validation failure "is reported synchronously ... as a
`ValidationError` carrying the specific reason". -/
def Precondition.check (p : Prop) [Decidable p] (err : String) : Except String Unit :=
  if p then .ok () else .error err

/-- Modelled from the spec: a JavaScript-array check; lists of a typed embedding are
always arrays, so the check always succeeds. -/
def Precondition.checkIsArray {α : Type} (_l : List α) (_err : String) : Except String Unit :=
  .ok ()

/-- Modelled from the spec: a JavaScript-string check; values embedded at type
`String` are always strings, so the check always succeeds. -/
def Precondition.checkIsString (_s : String) (_err : String) : Except String Unit :=
  .ok ()

/-- Modelled from the spec: a valid derivation path is "an ordered sequence of
unsigned 32-bit indices" whose length is within bounds; valid paths have length
3–10 (paths of length < 3 fail validation). -/
def isValidPathB (p : List Nat) : Bool :=
  decide (3 ≤ p.length) && decide (p.length ≤ 10) && p.all (fun i => decide (i < 2 ^ 32))

/-- Modelled from the spec: `Precondition.checkIsValidPath`; a missing (undefined)
path fails with the given error. -/
def Precondition.checkIsValidPath (p : Option (List Nat)) (err : String) : Except String Unit :=
  match p with
  | none => .error err
  | some l => if isValidPathB l then .ok () else .error err

/-- Hex check on a character list: "exact required length, composed only of hex
digits" — `len` counts bytes, so the string must have `2 * len` characters. -/
def checkIsHexCharsOfLength (l : List Char) (len : Nat) (err : String) : Except String Unit :=
  if l.all isHexDigitChar && l.length == 2 * len then .ok () else .error err

/-- Modelled from the spec: `Precondition.checkIsHexStringOfLength`. -/
def Precondition.checkIsHexStringOfLength (s : String) (len : Nat) (err : String) :
    Except String Unit :=
  checkIsHexCharsOfLength s.data len err

/-- Modelled from the spec: `checkIsHexStringOfLength` applied to a possibly missing
(nullable) value; a missing value is not a string and fails. -/
def Precondition.checkIsHexStringOfLengthOpt (s : Option String) (len : Nat) (err : String) :
    Except String Unit :=
  match s with
  | none => .error err
  | some str => Precondition.checkIsHexStringOfLength str len err

/-- Modelled from the spec: a hex string of unconstrained length — only hex digits,
and an even number of them (whole bytes). -/
def Precondition.checkIsHexString (s : String) (err : String) : Except String Unit :=
  if s.data.all isHexDigitChar && s.data.length % 2 == 0 then .ok () else .error err

/-- Modelled from the spec: "Unsigned decimal-string amounts: numeric, non-negative,
≤ an explicit maximum"; the maximum is itself given as a decimal string. -/
def Precondition.checkIsValidUintStr (s : String) (maxValue : String) (err : String) :
    Except String Unit :=
  match decStrToNat? s, decStrToNat? maxValue with
  | some v, some m => if v ≤ m then .ok () else .error err
  | _, _ => .error err

/-- Modelled from the spec: a bounded unsigned 64-bit decimal string. -/
def Precondition.checkIsUint64Str (s : String) (err : String) : Except String Unit :=
  Precondition.checkIsValidUintStr s MAX_UINT64_STR err

/-- Modelled from the spec: a valid ada amount is bounded by the max lovelace
supply. -/
def Precondition.checkIsValidAdaAmount (s : String) (err : String) : Except String Unit :=
  Precondition.checkIsValidUintStr s MAX_LOVELACE_SUPPLY_STR err

/-- Modelled from the spec: the pool-margin denominator must be a valid bounded
unsigned integer string. -/
def Precondition.checkIsValidPoolMarginDenominator (s : String) (err : String) :
    Except String Unit :=
  Precondition.checkIsValidUintStr s POOL_MARGIN_DENOMINATOR_MAX_STR err

/-- Modelled from the spec: a strictly positive bounded unsigned 64-bit decimal
string (used for ttl and validity interval start). -/
def Precondition.checkIsPositiveUint64Str (s : String) (err : String) : Except String Unit := do
  Precondition.checkIsUint64Str s err
  match decStrToNat? s with
  | some v => Precondition.check (0 < v) err
  | none => .error err

/-- Modelled from the spec: an unsigned 32-bit integer check. -/
def Precondition.checkIsUint32 (n : Nat) (err : String) : Except String Unit :=
  Precondition.check (n < 2 ^ 32) err

/-- Modelled from the spec: an unsigned 8-bit integer check. -/
def Precondition.checkIsUint8 (n : Nat) (err : String) : Except String Unit :=
  Precondition.check (n < 256) err

/-- Modelled from the spec: `safe_parseInt` parses a decimal string, failing on
anything that is not a plain digit string. -/
def safeParseInt? (s : String) : Option Nat := decStrToNat? s

/-! ## Error table (`txErrors.ts`, not under src/) -/

/- Modelled from the spec: the named validation-error reasons; each constant stands
for the distinct human-readable message attached to that reason. -/
namespace TxErrors

def CERTIFICATES_NOT_ARRAY : String := "certificates not an array"
def CERTIFICATES_COMBINATION_FORBIDDEN : String :=
  "pool registration must not be combined with other certificates"
def CERTIFICATE_INVALID : String := "invalid certificate"
def CERTIFICATE_MISSING_PATH : String := "certificate missing path"
def CERTIFICATE_SUPERFLUOUS_POOL_KEY_HASH : String := "superfluous pool key hash in a certificate"
def CERTIFICATE_MISSING_POOL_KEY_HASH : String := "certificate missing pool key hash"
def CERTIFICATE_POOL_INVALID_POOL_KEY_HASH : String := "invalid pool key hash"
def CERTIFICATE_POOL_INVALID_VRF_KEY_HASH : String := "invalid vrf key hash"
def CERTIFICATE_POOL_INVALID_PLEDGE : String := "invalid pledge"
def CERTIFICATE_POOL_INVALID_COST : String := "invalid cost"
def CERTIFICATE_POOL_INVALID_MARGIN : String := "invalid margin"
def CERTIFICATE_POOL_INVALID_MARGIN_DENOMINATOR : String := "invalid margin denominator"
def CERTIFICATE_POOL_INVALID_REWARD_ACCOUNT : String := "invalid reward account"
def CERTIFICATE_POOL_OWNERS_TOO_MANY : String := "too many pool owners"
def CERTIFICATE_POOL_RELAYS_TOO_MANY : String := "too many pool relays"
def CERTIFICATE_POOL_OWNERS_SINGLE_PATH : String := "exactly one owner must be given by path"
def CERTIFICATE_POOL_OWNER_INVALID_PATH : String := "invalid pool owner path"
def CERTIFICATE_POOL_OWNER_INVALID_KEY_HASH : String := "invalid pool owner key hash"
def CERTIFICATE_POOL_OWNER_INCOMPLETE : String := "incomplete pool owner"
def CERTIFICATE_POOL_RELAY_INVALID_PORT : String := "invalid relay port"
def CERTIFICATE_POOL_RELAY_INVALID_IPV4 : String := "invalid relay ipv4"
def CERTIFICATE_POOL_RELAY_INVALID_IPV6 : String := "invalid relay ipv6"
def CERTIFICATE_POOL_RELAY_INVALID_DNS : String := "invalid relay dns name"
def CERTIFICATE_POOL_RELAY_INVALID_TYPE : String := "invalid relay type"
def CERTIFICATE_POOL_METADATA_INVALID_URL : String := "invalid pool metadata url"
def CERTIFICATE_POOL_METADATA_INVALID_HASH : String := "invalid pool metadata hash"
def INPUTS_NOT_ARRAY : String := "inputs not an array"
def INPUT_INVALID_TX_HASH : String := "invalid input tx hash"
def INPUT_WITH_PATH : String := "stake pool registration: input with a path"
def OUTPUTS_NOT_ARRAY : String := "outputs not an array"
def OUTPUT_WITH_PATH : String := "stake pool registration: output with a spending path"
def OUTPUT_INVALID_AMOUNT : String := "invalid output amount"
def OUTPUT_INVALID_ADDRESS : String := "invalid output address"
def OUTPUT_INVALID_TOKEN_BUNDLE : String := "invalid token bundle"
def OUTPUT_INVALID_TOKEN_POLICY : String := "invalid token policy id"
def OUTPUT_INVALID_ASSET_NAME : String := "invalid asset name"
def FEE_INVALID : String := "invalid fee"
def TTL_INVALID : String := "invalid ttl"
def WITHDRAWALS_NOT_ARRAY : String := "withdrawals not an array"
def WITHDRAWALS_FORBIDDEN : String := "no withdrawals allowed for transactions registering stake pools"
def METADATA_INVALID : String := "invalid metadata"
def VALIDITY_INTERVAL_START_INVALID : String := "invalid validity interval start"

/-- Runtime failure of dereferencing an absent object (`poolRegistrationParams!`
when the field is missing): a TypeError, not a named validation reason. -/
def TYPE_ERROR_MISSING_POOL_PARAMS : String := "TypeError: poolRegistrationParams is undefined"

end TxErrors

/-! ## Embedding of `src/parsing.ts` -/

/-- `CertificateType` values (enum in `parsing.ts`): 0 = stake registration,
1 = stake deregistration, 2 = stake delegation, 3 = stake-pool registration. -/
def STAKE_POOL_REGISTRATION : Nat := 3

def KEY_HASH_LENGTH : Nat := 28
def TX_HASH_LENGTH : Nat := 32
def TOKEN_POLICY_LENGTH : Nat := 28
def TOKEN_NAME_LENGTH : Nat := 32
def ASSET_GROUPS_MAX : Nat := 1000
def TOKENS_IN_GROUP_MAX : Nat := 1000
def POOL_REGISTRATION_OWNERS_MAX : Nat := 1000
def POOL_REGISTRATION_RELAYS_MAX : Nat := 1000

/-- Raw caller-supplied pool margin (`PoolParams['margin']`). -/
structure RawMargin where
  numeratorStr : String
  denominatorStr : String
deriving DecidableEq

/-- Raw caller-supplied pool metadata (`PoolMetadataParams`). -/
structure RawPoolMetadata where
  metadataUrl : String
  metadataHashHex : String
deriving DecidableEq

/-- Raw caller-supplied pool owner (`PoolOwnerParams`). -/
structure RawPoolOwner where
  stakingPath : Option (List Nat)
  stakingKeyHashHex : Option String
deriving DecidableEq

/-- The loose per-relay parameter object (`SingleHostIPRelay` / `SingleHostNameRelay`
/ `MultiHostNameRelay`): each field may be absent. -/
structure RawRelayInner where
  portNumber : Option Nat
  ipv4 : Option String
  ipv6 : Option String
  dnsName : Option String
deriving DecidableEq

/-- Raw caller-supplied relay (`RelayParams`): a numeric type tag plus params. -/
structure RawRelay where
  type : Nat
  params : RawRelayInner
deriving DecidableEq

/-- Raw caller-supplied pool registration parameters (`PoolParams`). -/
structure RawPoolParams where
  poolKeyHashHex : String
  vrfKeyHashHex : String
  pledgeStr : String
  costStr : String
  margin : RawMargin
  rewardAccountHex : String
  poolOwners : List RawPoolOwner
  relays : List RawRelay
  metadata : Option RawPoolMetadata
deriving DecidableEq

/-- Raw caller-supplied certificate (`Certificate`): a numeric type tag plus the
optional fields of all variants. -/
structure RawCertificate where
  type : Nat
  path : Option (List Nat)
  poolKeyHashHex : Option String
  poolRegistrationParams : Option RawPoolParams
deriving DecidableEq

/-- `ParsedMargin`. -/
structure ParsedMargin where
  numeratorStr : String
  denominatorStr : String
deriving DecidableEq

/-- `ParsedPoolOwner`. -/
inductive ParsedPoolOwner where
  | path (path : List Nat)
  | keyHash (hashHex : String)
deriving DecidableEq

/-- Owner given by a derivation path (`PoolOwnerType.PATH`). -/
def ParsedPoolOwner.isPath : ParsedPoolOwner → Bool
  | .path _ => true
  | .keyHash _ => false

/-- `ParsedPoolRelay`. -/
inductive ParsedPoolRelay where
  | singleHostAddr (port : Option Nat) (ipv4 : Option (List Nat)) (ipv6 : Option (List Nat))
  | singleHostName (port : Option Nat) (dnsName : String)
  | multiHostName (dnsName : String)
deriving DecidableEq

/-- `ParsedPoolMetadata`. -/
structure ParsedPoolMetadata where
  url : String
  hashHex : String
deriving DecidableEq

/-- `ParsedPoolParams`. -/
structure ParsedPoolParams where
  keyHashHex : String
  vrfHashHex : String
  pledgeStr : String
  costStr : String
  margin : ParsedMargin
  rewardAccountHex : String
  owners : List ParsedPoolOwner
  relays : List ParsedPoolRelay
  metadata : Option ParsedPoolMetadata
deriving DecidableEq

/-- `ParsedCertificate`. -/
inductive ParsedCertificate where
  | stakeRegistration (path : List Nat)
  | stakeDeregistration (path : List Nat)
  | stakeDelegation (path : List Nat) (poolKeyHashHex : String)
  | stakePoolRegistration (pool : ParsedPoolParams)
deriving DecidableEq

/-- Is this parsed certificate a stake-pool registration? -/
def ParsedCertificate.isPoolRegistration : ParsedCertificate → Bool
  | .stakePoolRegistration _ => true
  | _ => false

/-- `parseAscii`: only printable ASCII (codes 32–126). -/
def parseAscii (str : String) (err : String) : Except String String := do
  Precondition.checkIsString str err
  Precondition.check (str.data.all (fun c => 32 ≤ c.toNat && c.toNat ≤ 126)) err
  return str

/-- `parseHexStringOfLength`. -/
def parseHexStringOfLength (str : String) (length : Nat) (err : String) :
    Except String String := do
  Precondition.checkIsHexStringOfLength str length err
  return str

/-- `parseUint64_str`. -/
def parseUint64_str (str : String) (maxValue : String) (err : String) :
    Except String String := do
  Precondition.checkIsValidUintStr str maxValue err
  return str

/-- `parseBIP32Path` (in `parsing.ts`): validate the path and return it; the
argument may be absent (undefined), which fails validation. -/
def parseBIP32PathOpt (path : Option (List Nat)) (err : String) :
    Except String (List Nat) := do
  Precondition.checkIsValidPath path err
  match path with
  | some l => return l
  | none => .error err

/-- `parseMargin`. -/
def parseMargin (params : RawMargin) : Except String ParsedMargin := do
  let marginNumeratorStr := params.numeratorStr
  let marginDenominatorStr := params.denominatorStr
  Precondition.checkIsUint64Str marginNumeratorStr
    TxErrors.CERTIFICATE_POOL_INVALID_MARGIN
  Precondition.checkIsValidPoolMarginDenominator marginDenominatorStr
    TxErrors.CERTIFICATE_POOL_INVALID_MARGIN_DENOMINATOR
  Precondition.checkIsValidUintStr marginNumeratorStr marginDenominatorStr
    TxErrors.CERTIFICATE_POOL_INVALID_MARGIN
  return { numeratorStr := marginNumeratorStr, denominatorStr := marginDenominatorStr }

/-- `parsePoolOwnerParams`: a path owner takes precedence; then a key-hash owner;
an owner with neither field is incomplete. -/
def parsePoolOwnerParams (params : RawPoolOwner) : Except String ParsedPoolOwner :=
  match params.stakingPath with
  | some sp => do
      let path ← parseBIP32PathOpt (some sp) TxErrors.CERTIFICATE_POOL_OWNER_INVALID_PATH
      return ParsedPoolOwner.path path
  | none =>
    match params.stakingKeyHashHex with
    | some h => do
        let hashHex ← parseHexStringOfLength h KEY_HASH_LENGTH
          TxErrors.CERTIFICATE_POOL_OWNER_INVALID_KEY_HASH
        return ParsedPoolOwner.keyHash hashHex
    | none => .error TxErrors.CERTIFICATE_POOL_OWNER_INCOMPLETE

/-- `parsePort`. -/
def parsePort (portNumber : Nat) (err : String) : Except String Nat := do
  Precondition.checkIsUint32 portNumber err
  Precondition.check (portNumber ≤ 65535) err
  return portNumber

/-- `parseIPv4`: four dot-separated decimal octets. -/
def parseIPv4 (ipv4 : String) (err : String) : Except String (List Nat) := do
  Precondition.checkIsString ipv4 err
  let ipParts := splitOnChar '.' ipv4.data
  Precondition.check (ipParts.length = 4) err
  let ipBytes ← mapExcept (fun part => do
    match safeParseInt? (String.mk part) with
    | some v => do
        Precondition.checkIsUint8 v err
        return v
    | none => .error err) ipParts
  return ipBytes

/-- `parseIPv6`: remove the colons (split on ":" and join) and require a hex string
of byte length 16, i.e. exactly 32 hex characters. -/
def parseIPv6 (ipv6 : String) (err : String) : Except String (List Nat) := do
  Precondition.checkIsString ipv6 err
  let ipHex := List.flatten (splitOnChar ':' ipv6.data)
  checkIsHexCharsOfLength ipHex 16 err
  return hexCharsToBytes ipHex

/-- `parseDnsName`: at most 64 characters, 7-bit, printable ASCII. -/
def parseDnsName (dnsName : String) (err : String) : Except String String := do
  Precondition.checkIsString dnsName err
  Precondition.check (dnsName.data.length ≤ 64) err
  Precondition.check (dnsName.data.all (fun c => c.toNat ≤ 127)) err
  Precondition.check (dnsName.data.all (fun c => 32 ≤ c.toNat && c.toNat ≤ 126)) err
  return dnsName

/-- Optional-field parse: `cond ? parse(x) : null`. -/
def parseOptional {α β : Type} (x : Option α) (f : α → Except String β) :
    Except String (Option β) :=
  match x with
  | none => .ok none
  | some v => (f v).map some

/-- `parsePoolRelayParams`: dispatch on the relay type tag (0 = single host by
address, 1 = single host by name, 2 = multi host by name). -/
def parsePoolRelayParams (relayParams : RawRelay) : Except String ParsedPoolRelay :=
  match relayParams.type with
  | 0 => do
      let port ← parseOptional relayParams.params.portNumber
        (fun p => parsePort p TxErrors.CERTIFICATE_POOL_RELAY_INVALID_PORT)
      let ipv4 ← parseOptional relayParams.params.ipv4
        (fun s => parseIPv4 s TxErrors.CERTIFICATE_POOL_RELAY_INVALID_IPV4)
      let ipv6 ← parseOptional relayParams.params.ipv6
        (fun s => parseIPv6 s TxErrors.CERTIFICATE_POOL_RELAY_INVALID_IPV6)
      return ParsedPoolRelay.singleHostAddr port ipv4 ipv6
  | 1 => do
      let port ← parseOptional relayParams.params.portNumber
        (fun p => parsePort p TxErrors.CERTIFICATE_POOL_RELAY_INVALID_PORT)
      match relayParams.params.dnsName with
      | some d => do
          let dnsName ← parseDnsName d TxErrors.CERTIFICATE_POOL_RELAY_INVALID_DNS
          return ParsedPoolRelay.singleHostName port dnsName
      | none => .error TxErrors.CERTIFICATE_POOL_RELAY_INVALID_DNS
  | 2 =>
      match relayParams.params.dnsName with
      | some d => do
          let dnsName ← parseDnsName d TxErrors.CERTIFICATE_POOL_RELAY_INVALID_DNS
          return ParsedPoolRelay.multiHostName dnsName
      | none => .error TxErrors.CERTIFICATE_POOL_RELAY_INVALID_DNS
  | _ => .error TxErrors.CERTIFICATE_POOL_RELAY_INVALID_TYPE

/-- `parsePoolMetadataParams`: absent metadata parses to `none`. -/
def parsePoolMetadataParams (params : Option RawPoolMetadata) :
    Except String (Option ParsedPoolMetadata) :=
  match params with
  | none => .ok none
  | some p => do
      let url ← parseAscii p.metadataUrl TxErrors.CERTIFICATE_POOL_METADATA_INVALID_URL
      Precondition.check (url.data.length ≤ 64) TxErrors.CERTIFICATE_POOL_METADATA_INVALID_URL
      let hashHex ← parseHexStringOfLength p.metadataHashHex 32
        TxErrors.CERTIFICATE_POOL_METADATA_INVALID_HASH
      return some { url := url, hashHex := hashHex }

/-- `parsePoolParams`. -/
def parsePoolParams (params : RawPoolParams) : Except String ParsedPoolParams := do
  let keyHashHex ← parseHexStringOfLength params.poolKeyHashHex KEY_HASH_LENGTH
    TxErrors.CERTIFICATE_POOL_INVALID_POOL_KEY_HASH
  let vrfHashHex ← parseHexStringOfLength params.vrfKeyHashHex 32
    TxErrors.CERTIFICATE_POOL_INVALID_VRF_KEY_HASH
  let pledgeStr ← parseUint64_str params.pledgeStr MAX_LOVELACE_SUPPLY_STR
    TxErrors.CERTIFICATE_POOL_INVALID_PLEDGE
  let costStr ← parseUint64_str params.costStr MAX_LOVELACE_SUPPLY_STR
    TxErrors.CERTIFICATE_POOL_INVALID_COST
  let margin ← parseMargin params.margin
  let rewardAccountHex ← parseHexStringOfLength params.rewardAccountHex 29
    TxErrors.CERTIFICATE_POOL_INVALID_REWARD_ACCOUNT
  let owners ← mapExcept parsePoolOwnerParams params.poolOwners
  let relays ← mapExcept parsePoolRelayParams params.relays
  let metadata ← parsePoolMetadataParams params.metadata
  Precondition.check (owners.length ≤ POOL_REGISTRATION_OWNERS_MAX)
    TxErrors.CERTIFICATE_POOL_OWNERS_TOO_MANY
  Precondition.check (relays.length ≤ POOL_REGISTRATION_RELAYS_MAX)
    TxErrors.CERTIFICATE_POOL_RELAYS_TOO_MANY
  Precondition.check ((owners.filter (fun o => o.isPath)).length = 1)
    TxErrors.CERTIFICATE_POOL_OWNERS_SINGLE_PATH
  return {
    keyHashHex := keyHashHex,
    vrfHashHex := vrfHashHex,
    pledgeStr := pledgeStr,
    costStr := costStr,
    margin := margin,
    rewardAccountHex := rewardAccountHex,
    owners := owners,
    relays := relays,
    metadata := metadata }

/-- `parseCertificate`: dispatch on the certificate type tag. -/
def parseCertificate (cert : RawCertificate) : Except String ParsedCertificate :=
  match cert.type with
  | 0 => do
      Precondition.checkIsValidPath cert.path TxErrors.CERTIFICATE_MISSING_PATH
      Precondition.check cert.poolKeyHashHex.isNone
        TxErrors.CERTIFICATE_SUPERFLUOUS_POOL_KEY_HASH
      let p ← parseBIP32PathOpt cert.path TxErrors.CERTIFICATE_MISSING_PATH
      return ParsedCertificate.stakeRegistration p
  | 1 => do
      Precondition.checkIsValidPath cert.path TxErrors.CERTIFICATE_MISSING_PATH
      Precondition.check cert.poolKeyHashHex.isNone
        TxErrors.CERTIFICATE_SUPERFLUOUS_POOL_KEY_HASH
      let p ← parseBIP32PathOpt cert.path TxErrors.CERTIFICATE_MISSING_PATH
      return ParsedCertificate.stakeDeregistration p
  | 2 => do
      Precondition.checkIsValidPath cert.path TxErrors.CERTIFICATE_MISSING_PATH
      Precondition.checkIsHexStringOfLengthOpt cert.poolKeyHashHex KEY_HASH_LENGTH
        TxErrors.CERTIFICATE_MISSING_POOL_KEY_HASH
      let p ← parseBIP32PathOpt cert.path TxErrors.CERTIFICATE_MISSING_PATH
      match cert.poolKeyHashHex with
      | some h => do
          let hashHex ← parseHexStringOfLength h KEY_HASH_LENGTH
            TxErrors.CERTIFICATE_MISSING_POOL_KEY_HASH
          return ParsedCertificate.stakeDelegation p hashHex
      | none => .error TxErrors.CERTIFICATE_MISSING_POOL_KEY_HASH
  | 3 =>
      match cert.poolRegistrationParams with
      | none => .error TxErrors.TYPE_ERROR_MISSING_POOL_PARAMS
      | some pp => (parsePoolParams pp).map (fun pool => ParsedCertificate.stakePoolRegistration pool)
  | _ => .error TxErrors.CERTIFICATE_INVALID

/-- `parseCertificates`: parse each certificate in order, then forbid combining a
pool-registration certificate with anything else. -/
def parseCertificates (certificates : List RawCertificate) :
    Except String (List ParsedCertificate) := do
  Precondition.checkIsArray certificates TxErrors.CERTIFICATES_NOT_ARRAY
  let parsed ← mapExcept parseCertificate certificates
  Precondition.check
    ((parsed.all (fun cert => !cert.isPoolRegistration)) || parsed.length = 1)
    TxErrors.CERTIFICATES_COMBINATION_FORBIDDEN
  return parsed

/-! ## Embedding of `validateTransaction` (`src/parsing.ts`) -/

/-- `Network`. -/
structure Network where
  networkId : Nat
  protocolMagic : Nat
deriving DecidableEq

/-- Raw transaction input (`InputTypeUTxO`). -/
structure RawInput where
  txHashHex : String
  path : Option (List Nat)
deriving DecidableEq

/-- Raw token inside an asset group. -/
structure RawToken where
  assetNameHex : String
  amountStr : String
deriving DecidableEq

/-- Raw asset group of a token bundle. -/
structure RawAssetGroup where
  policyIdHex : String
  tokens : List RawToken
deriving DecidableEq

/-- Raw transaction output (`TxOutputTypeAddress` / `TxOutputTypeAddressParams`):
either a raw address hex string or a spending path, an amount, and an optional
token bundle. -/
structure RawOutput where
  amountStr : String
  addressHex : Option String
  spendingPath : Option (List Nat)
  tokenBundle : Option (List RawAssetGroup)
deriving DecidableEq

/-- Raw withdrawal (`Withdrawal`). -/
structure RawWithdrawal where
  path : Option (List Nat)
  amountStr : String
deriving DecidableEq

/-- Modelled from the spec: `serializeOutputBasicParams` (from `cardano.ts`, not
under src/) serializes an output's address and amount, and "an error is thrown if
ada amount or address params are invalid"; only this validation behaviour is
modelled — the amount must be a valid lovelace amount and the output must carry
either a raw address hex string or a valid spending path. -/
def serializeOutputBasicParams (output : RawOutput) (_network : Network) :
    Except String Unit := do
  Precondition.checkIsValidAdaAmount output.amountStr TxErrors.OUTPUT_INVALID_AMOUNT
  match output.addressHex, output.spendingPath with
  | some a, _ => Precondition.checkIsHexString a TxErrors.OUTPUT_INVALID_ADDRESS
  | none, some p => Precondition.checkIsValidPath (some p) TxErrors.OUTPUT_INVALID_ADDRESS
  | none, none => .error TxErrors.OUTPUT_INVALID_ADDRESS

/-- The per-token loop of the output validation. -/
def checkTokens : List RawToken → Except String Unit
  | [] => .ok ()
  | token :: rest => do
      Precondition.checkIsHexString token.assetNameHex TxErrors.OUTPUT_INVALID_ASSET_NAME
      Precondition.check (token.assetNameHex.data.length ≤ TOKEN_NAME_LENGTH * 2)
        TxErrors.OUTPUT_INVALID_ASSET_NAME
      Precondition.checkIsUint64Str token.amountStr PRECONDITION_FAILED_MSG
      checkTokens rest

/-- The per-asset-group loop of the output validation. -/
def checkAssetGroups : List RawAssetGroup → Except String Unit
  | [] => .ok ()
  | assetGroup :: rest => do
      Precondition.checkIsHexStringOfLength assetGroup.policyIdHex TOKEN_POLICY_LENGTH
        TxErrors.OUTPUT_INVALID_TOKEN_POLICY
      Precondition.checkIsArray assetGroup.tokens PRECONDITION_FAILED_MSG
      Precondition.check (assetGroup.tokens.length ≤ TOKENS_IN_GROUP_MAX)
        PRECONDITION_FAILED_MSG
      checkTokens assetGroup.tokens
      checkAssetGroups rest

/-- The inputs loop of `validateTransaction`: each tx hash must be a 32-byte hex
string, and when signing a pool registration as owner no input may carry a path. -/
def checkInputs (isSigningPoolRegistrationAsOwner : Bool) :
    List RawInput → Except String Unit
  | [] => .ok ()
  | input :: rest => do
      Precondition.checkIsHexStringOfLength input.txHashHex TX_HASH_LENGTH
        TxErrors.INPUT_INVALID_TX_HASH
      (if isSigningPoolRegistrationAsOwner then
        Precondition.check input.path.isNone TxErrors.INPUT_WITH_PATH
      else .ok ())
      checkInputs isSigningPoolRegistrationAsOwner rest

/-- The outputs loop of `validateTransaction`. -/
def checkOutputs (network : Network) (isSigningPoolRegistrationAsOwner : Bool) :
    List RawOutput → Except String Unit
  | [] => .ok ()
  | output :: rest => do
      serializeOutputBasicParams output network
      (if output.spendingPath.isSome then
        Precondition.check (!isSigningPoolRegistrationAsOwner) TxErrors.OUTPUT_WITH_PATH
      else .ok ())
      (match output.tokenBundle with
       | none => .ok ()
       | some tokenBundle => do
          Precondition.checkIsArray tokenBundle TxErrors.OUTPUT_INVALID_TOKEN_BUNDLE
          Precondition.check (tokenBundle.length ≤ ASSET_GROUPS_MAX) PRECONDITION_FAILED_MSG
          checkAssetGroups tokenBundle)
      checkOutputs network isSigningPoolRegistrationAsOwner rest

/-- The ttl check of `validateTransaction` (only when a ttl is given). -/
def checkTtl (ttlStr : Option String) : Except String Unit :=
  match ttlStr with
  | none => .ok ()
  | some t => Precondition.checkIsPositiveUint64Str t TxErrors.TTL_INVALID

/-- The per-withdrawal loop of `validateTransaction`. -/
def checkWithdrawalItems : List RawWithdrawal → Except String Unit
  | [] => .ok ()
  | withdrawal :: rest => do
      Precondition.checkIsValidAdaAmount withdrawal.amountStr PRECONDITION_FAILED_MSG
      Precondition.checkIsValidPath withdrawal.path PRECONDITION_FAILED_MSG
      checkWithdrawalItems rest

/-- `validateTransaction`: the checks run in source order — inputs, outputs, fee,
ttl, certificates, then withdrawals (the pool-registration/withdrawal exclusion
first), then metadata and validity interval start. -/
def validateTransaction (network : Network) (inputs : List RawInput)
    (outputs : List RawOutput) (feeStr : String) (ttlStr : Option String)
    (certificates : List RawCertificate) (withdrawals : List RawWithdrawal)
    (metadataHashHex : Option String) (validityIntervalStartStr : Option String) :
    Except String Unit := do
  Precondition.checkIsArray certificates TxErrors.CERTIFICATES_NOT_ARRAY
  let isSigningPoolRegistrationAsOwner :=
    certificates.any (fun cert => cert.type == STAKE_POOL_REGISTRATION)
  Precondition.checkIsArray inputs TxErrors.INPUTS_NOT_ARRAY
  checkInputs isSigningPoolRegistrationAsOwner inputs
  Precondition.checkIsArray outputs TxErrors.OUTPUTS_NOT_ARRAY
  checkOutputs network isSigningPoolRegistrationAsOwner outputs
  Precondition.checkIsValidAdaAmount feeStr TxErrors.FEE_INVALID
  checkTtl ttlStr
  let _ ← parseCertificates certificates
  Precondition.checkIsArray withdrawals TxErrors.WITHDRAWALS_NOT_ARRAY
  (if isSigningPoolRegistrationAsOwner && decide (withdrawals.length > 0) then
    Except.error TxErrors.WITHDRAWALS_FORBIDDEN
  else .ok ())
  checkWithdrawalItems withdrawals
  (match metadataHashHex with
   | none => .ok ()
   | some m => Precondition.checkIsHexStringOfLength m 32 TxErrors.METADATA_INVALID)
  (match validityIntervalStartStr with
   | none => .ok ()
   | some v => Precondition.checkIsPositiveUint64Str v
      TxErrors.VALIDITY_INTERVAL_START_INVALID)

/-! ## Embedding of the legacy chunked streaming protocol (`src/Ada.js`) -/

def MAX_APDU_SIZE : Nat := 64
def OFFSET_CDATA : Nat := 5
def P1_FIRST : Nat := 0x01
def P1_NEXT : Nat := 0x02
def P1_LAST : Nat := 0x03
def P2_SINGLE_TX : Nat := 0x01
def P2_MULTI_TX : Nat := 0x02

/-- One emitted chunk of `setTransaction`: its two marker bytes and its payload. -/
structure TxChunk where
  p1 : Nat
  p2 : Nat
  data : List Nat
deriving DecidableEq

/-- Default chunk (for list lookups with a default). -/
def dummyChunk : TxChunk := { p1 := 0, p2 := 0, data := [] }

/-- The chunking loop of `setTransaction`: `for (i = 0; i < L; i += C)` emits the
slice `[i, i+C)` with `p1` = FIRST at `i = 0`, LAST when `i + C ≥ L`, otherwise
NEXT, and `p2` = SINGLE_TX when `L < C`, else MULTI_TX.  The `0 < C` conjunct in
the guard is a termination guard: the source loop would not terminate for
`C = 0` (the code always uses `C = 59`). -/
def setTxChunksGo (C L : Nat) (rawTx : List Nat) (i : Nat) : List TxChunk :=
  if _h : i < L ∧ 0 < C then
    { p1 := if i = 0 then P1_FIRST else if L ≤ i + C then P1_LAST else P1_NEXT,
      p2 := if L < C then P2_SINGLE_TX else P2_MULTI_TX,
      data := (rawTx.drop i).take C } :: setTxChunksGo C L rawTx (i + C)
  else []
termination_by L - i
decreasing_by omega

/-- The chunk sequence produced by the streaming protocol for a payload, with the
maximum chunk payload size `C` abstracted. -/
def setTransactionChunks (C : Nat) (rawTx : List Nat) : List TxChunk :=
  setTxChunksGo C rawTx.length rawTx 0

/-- `setTransaction`: the legacy entry point fixes `C = MAX_APDU_SIZE - OFFSET_CDATA`. -/
def setTransaction (rawTx : List Nat) : List TxChunk :=
  setTransactionChunks (MAX_APDU_SIZE - OFFSET_CDATA) rawTx

/-! ## Embedding of the interaction engine (`src/Ada.ts`) -/

/-- `SendParams`: one APDU request — instruction, two parameter bytes, payload,
and the optional expected response length. -/
structure SendParams where
  ins : Nat
  p1 : Nat
  p2 : Nat
  data : List Nat
  expectedResponseLength : Option Nat
deriving DecidableEq

/-- `Interaction<T>`: a resumable conversation that either is complete with a
value or yields one APDU request and continues as a function of the raw response
bytes (the generator type of `Ada.ts`, embedded as a tree). -/
inductive Interaction (α : Type) : Type where
  | done (value : α)
  | step (params : SendParams) (next : List Nat → Interaction α)

/-- `yield*` delegation: run the sub-interaction, forwarding every request and
response, then continue with its result. -/
def Interaction.bind {α β : Type} : Interaction α → (α → Interaction β) → Interaction β
  | .done a, f => f a
  | .step p k, f => .step p (fun r => (k r).bind f)

/-- The first request an interaction yields (none when already complete). -/
def Interaction.firstRequest {α : Type} : Interaction α → Option SendParams
  | .done _ => none
  | .step p _ => some p

/-- Resume an interaction with the response to its current request (a complete
interaction is unchanged). -/
def Interaction.resumeWith {α : Type} (r : List Nat) : Interaction α → Interaction α
  | .done a => .done a
  | .step _ k => k r

/-- Modelled from the spec: the value of `DeviceStatusCodes.ERR_STILL_IN_CALL`
(from the errors module, not under src/) — the status with which the device
reports that it "considers itself mid-exchange from a previous, abandoned
conversation". -/
def ERR_STILL_IN_CALL : Nat := 0x6e04

/-- A failed exchange as seen by the driver: a converted device status code
(`DeviceStatusError`), the fatal response-length assertion, or a transport-level
failure passed through unmodified. -/
inductive DevFailure where
  | statusCode (code : Nat)
  | assertionFailed
  | transportError
deriving DecidableEq

/-- One scripted transport exchange: the device either throws a status code or
returns raw response bytes (payload followed by the two status bytes). -/
abbrev TransportEntry := Except Nat (List Nat)

/-- Modelled from the spec: `utils.stripRetcodeFromResponse` removes the trailing
two-byte status-code suffix from a raw response ("Response frame: `payload ||
status:2`, status trailing"). -/
def stripRetcodeFromResponse (response : List Nat) : List Nat :=
  response.take (response.length - 2)

/-- The `_send` function built in the `Ada` constructor: convert a thrown status
code into a device-status failure; on success strip the retcode suffix and, when
an expected response length is declared, assert that the remaining payload length
matches (a mismatch is the fatal assertion failure). -/
def adaSend (expectedResponseLength : Option Nat) (entry : TransportEntry) :
    Except DevFailure (List Nat) :=
  match entry with
  | .error code => .error (.statusCode code)
  | .ok raw =>
    let response := stripRetcodeFromResponse raw
    match expectedResponseLength with
    | none => .ok response
    | some n =>
      if response.length = n then .ok response else .error .assertionFailed

/-- Perform one exchange against the scripted transport: consume its next entry
and run `_send` on it; an exhausted script is a transport failure. -/
def sendOnce (params : SendParams) (ts : List TransportEntry) :
    Except DevFailure (List Nat) × List TransportEntry :=
  match ts with
  | [] => (.error .transportError, [])
  | e :: rest => (adaSend params.expectedResponseLength e, rest)

/-- The retry condition of `wrapRetryStillInCall`: only an error carrying the
`ERR_STILL_IN_CALL` status code is retried. -/
def retriableFailure : DevFailure → Bool
  | .statusCode code => code == ERR_STILL_IN_CALL
  | _ => false

/-- `wrapRetryStillInCall`: perform the exchange; if it fails with
`ERR_STILL_IN_CALL`, perform it exactly once more and return that second result
(whatever it is); any other failure is returned immediately. -/
def wrapRetryStillInCall (params : SendParams) (ts : List TransportEntry) :
    Except DevFailure (List Nat) × List TransportEntry :=
  match sendOnce params ts with
  | (.ok b, rest) => (.ok b, rest)
  | (.error e, rest) =>
    if retriableFailure e then sendOnce params rest else (.error e, rest)

/-- The driver loop of `interact`: while the interaction is not done, send its
current request — wrapped by the retry layer only when it is the first
exchange — and resume the interaction with the response; a failed exchange aborts
with that failure. -/
def interactGo {α : Type} : Interaction α → Bool → List TransportEntry →
    Except DevFailure α × List TransportEntry
  | .done value, _, ts => (.ok value, ts)
  | .step params k, first, ts =>
    match (if first then wrapRetryStillInCall params ts else sendOnce params ts) with
    | (.ok response, rest) => interactGo (k response) false rest
    | (.error e, rest) => (.error e, rest)

/-- `interact`: drive an interaction from its start (the first exchange is the
retry-wrapped one). -/
def interact {α : Type} (interaction : Interaction α) (ts : List TransportEntry) :
    Except DevFailure α × List TransportEntry :=
  interactGo interaction true ts

/-- `Version`: major/minor/patch plus capability flags. -/
structure Version where
  major : Nat
  minor : Nat
  patch : Nat
  flags : Nat
deriving DecidableEq

/-- Modelled from the spec: the get-version APDU (instruction selecting the
get-version operation; a fixed four-byte response: major, minor, patch, flags). -/
def getVersionParams : SendParams :=
  { ins := 0x00, p1 := 0x00, p2 := 0x00, data := [], expectedResponseLength := some 4 }

/-- Modelled from the spec: decode the four version bytes of the get-version
response. -/
def parseVersionResponse (resp : List Nat) : Version :=
  { major := resp.getD 0 0, minor := resp.getD 1 0, patch := resp.getD 2 0,
    flags := resp.getD 3 0 }

/-- Modelled from the spec: the `getVersion` interaction (from
`interactions/getVersion`, not under src/) — a single get-version exchange whose
response is decoded into a `Version`. -/
def getVersionInteraction : Interaction Version :=
  .step getVersionParams (fun resp => .done (parseVersionResponse resp))

/-- `Ada._getSerial`: query the version, then delegate to the imported
`getSerial` interaction (kept abstract as a parameter, since its body is not
under src/). -/
def Ada_getSerial {Serial : Type} (getSerial : Version → Interaction Serial) :
    Interaction Serial :=
  getVersionInteraction.bind (fun version => getSerial version)

/-- `Ada._getExtendedPublicKeys`: query the version, then delegate to the
imported `getExtendedPublicKeys` interaction on the parsed paths. -/
def Ada_getExtendedPublicKeys {K : Type}
    (getExtendedPublicKeys : Version → List (List Nat) → Interaction K)
    (paths : List (List Nat)) : Interaction K :=
  getVersionInteraction.bind (fun version => getExtendedPublicKeys version paths)

/-- `Ada._deriveAddress`: query the version, then delegate to the imported
`deriveAddress` interaction on the parsed address parameters. -/
def Ada_deriveAddress {AddrParams DerivedAddr : Type}
    (deriveAddress : Version → AddrParams → Interaction DerivedAddr)
    (addressParams : AddrParams) : Interaction DerivedAddr :=
  getVersionInteraction.bind (fun version => deriveAddress version addressParams)

/-- `Ada._showAddress`: query the version, then delegate to the imported
`showAddress` interaction on the parsed address parameters. -/
def Ada_showAddress {AddrParams : Type}
    (showAddress : Version → AddrParams → Interaction Unit)
    (addressParams : AddrParams) : Interaction Unit :=
  getVersionInteraction.bind (fun version => showAddress version addressParams)

/-- `Ada._signTx`: query the version, then delegate to the imported
`signTransaction` interaction on the parsed signing request. -/
def Ada_signTx {SignReq SignedTx : Type}
    (signTransaction : Version → SignReq → Interaction SignedTx)
    (request : SignReq) : Interaction SignedTx :=
  getVersionInteraction.bind (fun version => signTransaction version request)

/-- `Ada._signOperationalCertificate`: query the version, then delegate to the
imported `signOperationalCertificate` interaction. -/
def Ada_signOperationalCertificate {OpCert OpCertSig : Type}
    (signOperationalCertificate : Version → OpCert → Interaction OpCertSig)
    (request : OpCert) : Interaction OpCertSig :=
  getVersionInteraction.bind (fun version => signOperationalCertificate version request)

/-- `Ada._signCIP36Vote`: query the version, then delegate to the imported
`signCVote` interaction. -/
def Ada_signCIP36Vote {CVoteReq CVoteSig : Type}
    (signCVote : Version → CVoteReq → Interaction CVoteSig)
    (request : CVoteReq) : Interaction CVoteSig :=
  getVersionInteraction.bind (fun version => signCVote version request)

/-- `Ada._deriveNativeScriptHash`: query the version, then delegate to the
imported `deriveNativeScriptHash` interaction on the parsed script and display
format. -/
def Ada_deriveNativeScriptHash {Script Fmt ScriptHash : Type}
    (deriveNativeScriptHash : Version → Script → Fmt → Interaction ScriptHash)
    (script : Script) (displayFormat : Fmt) : Interaction ScriptHash :=
  getVersionInteraction.bind
    (fun version => deriveNativeScriptHash version script displayFormat)

/-! ## The two public extended-public-key entry points (`src/Ada.ts`) -/

/-- An error escaping a public operation: either a validation error raised before
any device interaction, or a failure of the device conversation. -/
inductive ApiError where
  | invalidData (reason : String)
  | device (failure : DevFailure)
deriving DecidableEq

/-- Modelled from the spec: `InvalidDataReason.INVALID_PATH`. -/
def INVALID_PATH_REASON : String := "invalid path"

/-- Modelled from the spec: `parseBIP32Path` from `utils/parse` (not under src/)
— validate the path shape and return it, failing with the invalid-path reason. -/
def parseBIP32PathPub (path : List Nat) : Except String (List Nat) :=
  if isValidPathB path then .ok path else .error INVALID_PATH_REASON

/-- `Ada.getExtendedPublicKeys`: validate that the paths form an array (trivial in
the typed embedding), parse every path, then drive the version-prefixed
interaction against the transport script.  The per-path device conversation is a
parameter, since its body is not under src/. -/
def getExtendedPublicKeysCall {K : Type}
    (getExtendedPublicKeys : Version → List (List Nat) → Interaction (List K))
    (paths : List (List Nat)) (ts : List TransportEntry) : Except ApiError (List K) :=
  match mapExcept parseBIP32PathPub paths with
  | .error e => .error (.invalidData e)
  | .ok parsed =>
    match interact (Ada_getExtendedPublicKeys getExtendedPublicKeys parsed) ts with
    | (.ok v, _) => .ok v
    | (.error f, _) => .error (.device f)

/-- `Ada.getExtendedPublicKey`: `(await this.getExtendedPublicKeys({paths:
[path]}))[0]` — call the plural entry point on the singleton list and take the
first element (`none` models JavaScript `undefined` for an empty result). -/
def getExtendedPublicKeyCall {K : Type}
    (getExtendedPublicKeys : Version → List (List Nat) → Interaction (List K))
    (path : List Nat) (ts : List TransportEntry) : Except ApiError (Option K) :=
  (getExtendedPublicKeysCall getExtendedPublicKeys [path] ts).map (fun l => l.head?)

/-! ## Concrete example inputs -/

/-- A valid derivation path: `44'/1815'/0'`. -/
def examplePath : List Nat := [2147483692, 2147485463, 2147483648]

/-- A fully valid set of raw pool registration parameters. -/
def validPoolParamsExample : RawPoolParams :=
  { poolKeyHashHex := "0123456789abcdef0123456789abcdef0123456789abcdef01234567",
    vrfKeyHashHex := "0123456789abcdef0123456789abcdef0123456789abcdef0123456789abcdef",
    pledgeStr := "0",
    costStr := "340000000",
    margin := { numeratorStr := "3", denominatorStr := "100" },
    rewardAccountHex := "0123456789abcdef0123456789abcdef0123456789abcdef0123456789",
    poolOwners := [{ stakingPath := some examplePath, stakingKeyHashHex := none }],
    relays := [],
    metadata := none }

/-- A valid stake-pool-registration certificate. -/
def poolRegCertExample : RawCertificate :=
  { type := 3, path := none, poolKeyHashHex := none,
    poolRegistrationParams := some validPoolParamsExample }

/-- A valid stake-registration certificate. -/
def stakeRegCertExample : RawCertificate :=
  { type := 0, path := some examplePath, poolKeyHashHex := none,
    poolRegistrationParams := none }

/-- An invalid stake-registration certificate: its path is missing. -/
def missingPathCertExample : RawCertificate :=
  { type := 0, path := none, poolKeyHashHex := none,
    poolRegistrationParams := none }

/-- A valid raw withdrawal. -/
def withdrawalExample : RawWithdrawal :=
  { path := some examplePath, amountStr := "1000" }

/-- The mainnet network constant. -/
def mainnetExample : Network := { networkId := 1, protocolMagic := 764824073 }

/-- A fixed request with no declared expected response length. -/
def dummyParams : SendParams :=
  { ins := 1, p1 := 0, p2 := 0, data := [], expectedResponseLength := none }

/-- A fixed request expecting a four-byte response. -/
def dummyParams4 : SendParams :=
  { ins := 1, p1 := 0, p2 := 0, data := [], expectedResponseLength := some 4 }

/-- The parsed form of `validPoolParamsExample`. -/
def parsedPoolExample : ParsedPoolParams :=
  { keyHashHex := "0123456789abcdef0123456789abcdef0123456789abcdef01234567",
    vrfHashHex := "0123456789abcdef0123456789abcdef0123456789abcdef0123456789abcdef",
    pledgeStr := "0",
    costStr := "340000000",
    margin := { numeratorStr := "3", denominatorStr := "100" },
    rewardAccountHex := "0123456789abcdef0123456789abcdef0123456789abcdef0123456789",
    owners := [ParsedPoolOwner.path examplePath],
    relays := [],
    metadata := none }

/-! ## Helper lemmas -/

theorem splitOnChar_ne_nil (sep : Char) (l : List Char) : splitOnChar sep l ≠ [] := by
  cases l with
  | nil => simp [splitOnChar]
  | cons c cs =>
    simp only [splitOnChar]
    split
    · simp
    · split <;> simp

theorem flatten_splitOnChar (sep : Char) (l : List Char) :
    (splitOnChar sep l).flatten = l.filter (fun c => c ≠ sep) := by
  induction l with
  | nil => simp [splitOnChar]
  | cons c cs ih =>
    simp only [splitOnChar]
    cases h : splitOnChar sep cs with
    | nil => exact absurd h (splitOnChar_ne_nil sep cs)
    | cons g gs =>
      rw [h] at ih
      by_cases hc : c = sep
      · simp only [hc, if_pos rfl, List.flatten_cons, List.nil_append, List.filter_cons]
        simp only [List.flatten_cons] at ih
        simp [ih]
      · simp only [if_neg hc, List.flatten_cons, List.cons_append, List.filter_cons]
        simp only [List.flatten_cons] at ih
        simp [ih, hc]

/-- Reduction of `pure` in the `Except` monad. -/
@[simp] theorem exceptPure_eq {ε α : Type} (a : α) : (pure a : Except ε α) = .ok a := rfl

/-- Reduction of `bind` on a success in the `Except` monad. -/
@[simp] theorem exceptBind_ok {ε α β : Type} (a : α) (f : α → Except ε β) :
    ((Except.ok a : Except ε α) >>= f) = f a := rfl

/-- Reduction of `bind` on a failure in the `Except` monad. -/
@[simp] theorem exceptBind_error {ε α β : Type} (e : ε) (f : α → Except ε β) :
    ((Except.error e : Except ε α) >>= f) = .error e := rfl

/-- Reduction of `Functor.map` on a success in the `Except` monad. -/
@[simp] theorem exceptMap_ok {ε α β : Type} (f : α → β) (a : α) :
    (f <$> (Except.ok a : Except ε α)) = .ok (f a) := rfl

/-- Reduction of `Functor.map` on a failure in the `Except` monad. -/
@[simp] theorem exceptMap_error {ε α β : Type} (f : α → β) (e : ε) :
    (f <$> (Except.error e : Except ε α)) = .error e := rfl

/-- `isOk` on a success. -/
@[simp] theorem exceptIsOk_ok {ε α : Type} (a : α) : (Except.ok a : Except ε α).isOk = true := rfl

/-- `isOk` on a failure. -/
@[simp] theorem exceptIsOk_error {ε α : Type} (e : ε) :
    (Except.error e : Except ε α).isOk = false := rfl

/-- `parseIPv6` as a single conditional: it returns the decoded bytes when the
colon-stripped character list is all-hex of length 32, and the given error
otherwise. -/
theorem parseIPv6_eq_cond (s err : String) :
    parseIPv6 s err =
      (if ((splitOnChar ':' s.data).flatten.all isHexDigitChar &&
            (splitOnChar ':' s.data).flatten.length == 2 * 16) then
        Except.ok (hexCharsToBytes ((splitOnChar ':' s.data).flatten))
      else Except.error err) := by
  unfold parseIPv6 Precondition.checkIsString checkIsHexCharsOfLength
  simp only [exceptBind_ok]
  cases _h : ((splitOnChar ':' s.data).flatten.all isHexDigitChar &&
      (splitOnChar ':' s.data).flatten.length == 2 * 16) <;> rfl

/-! ## Claim C6 — `parseMargin` -/

/-- C6: for every margin pair of decimal strings (numeratorStr, denominatorStr)
with values 0 ≤ numerator ≤ denominator ≤ the pool-margin denominator bound,
`parseMargin` succeeds and returns both strings unchanged; for every decimal pair
with numerator > denominator, `parseMargin` throws the invalid-margin error. -/
theorem claim_C6_parseMargin (num den : String) (v w : Nat)
    (hv : decStrToNat? num = some v) (hw : decStrToNat? den = some w) :
    (v ≤ w → w ≤ POOL_MARGIN_DENOMINATOR_MAX →
      parseMargin { numeratorStr := num, denominatorStr := den } =
        .ok { numeratorStr := num, denominatorStr := den })
    ∧ (w < v →
      parseMargin { numeratorStr := num, denominatorStr := den } =
        .error TxErrors.CERTIFICATE_POOL_INVALID_MARGIN) := by
  have hmax : decStrToNat? MAX_UINT64_STR = some POOL_MARGIN_DENOMINATOR_MAX := by decide
  constructor
  · intro h1 h2
    have hvmax : v ≤ POOL_MARGIN_DENOMINATOR_MAX := le_trans h1 h2
    simp [parseMargin, Precondition.checkIsUint64Str,
      Precondition.checkIsValidPoolMarginDenominator, Precondition.checkIsValidUintStr,
      POOL_MARGIN_DENOMINATOR_MAX_STR, hv, hw, hmax, hvmax, h1, h2]
  · intro hlt
    by_cases hv64 : v ≤ POOL_MARGIN_DENOMINATOR_MAX
    · have hwmax : w ≤ POOL_MARGIN_DENOMINATOR_MAX := by omega
      have hnle : ¬ v ≤ w := by omega
      simp [parseMargin, Precondition.checkIsUint64Str,
        Precondition.checkIsValidPoolMarginDenominator, Precondition.checkIsValidUintStr,
        POOL_MARGIN_DENOMINATOR_MAX_STR, hv, hw, hmax, hv64, hwmax, hnle]
    · simp [parseMargin, Precondition.checkIsUint64Str, Precondition.checkIsValidUintStr,
        hv, hmax, hv64]

/-- C6 witness: the pair ("3", "100") parses to itself, and the pair ("5", "4")
fails with the invalid-margin error. -/
theorem claim_C6_parseMargin_witness :
    decStrToNat? "3" = some 3 ∧ decStrToNat? "100" = some 100 ∧
    parseMargin { numeratorStr := "3", denominatorStr := "100" } =
      .ok { numeratorStr := "3", denominatorStr := "100" } ∧
    decStrToNat? "5" = some 5 ∧ decStrToNat? "4" = some 4 ∧
    parseMargin { numeratorStr := "5", denominatorStr := "4" } =
      .error TxErrors.CERTIFICATE_POOL_INVALID_MARGIN :=
  ⟨by decide, by decide,
   (claim_C6_parseMargin "3" "100" 3 100 (by decide) (by decide)).1 (by decide) (by decide),
   by decide, by decide,
   (claim_C6_parseMargin "5" "4" 5 4 (by decide) (by decide)).2 (by decide)⟩

/-! ## Claim C7 — `parseIPv6` -/

/-- C7: `parseIPv6` accepts a string if and only if, after deleting all colon
characters, exactly 32 hexadecimal characters remain (the source's
split-on-colon-and-join equals deleting colons — third conjunct); any rejected
string — in particular a compressed "::" form leaving fewer than 32 hex
characters — is rejected with the given invalid-IPv6 error. -/
theorem claim_C7_parseIPv6 (s : String) (err : String) :
    ((parseIPv6 s err).isOk = true ↔
      ((s.data.filter (fun c => c ≠ ':')).length = 32 ∧
        (s.data.filter (fun c => c ≠ ':')).all isHexDigitChar = true))
    ∧ ((parseIPv6 s err).isOk = false → parseIPv6 s err = .error err)
    ∧ (splitOnChar ':' s.data).flatten = s.data.filter (fun c => c ≠ ':') := by
  have hsplit : (splitOnChar ':' s.data).flatten = s.data.filter (fun c => c ≠ ':') :=
    flatten_splitOnChar ':' s.data
  have hcond := parseIPv6_eq_cond s err
  rw [hsplit] at hcond
  by_cases hall : (s.data.filter (fun c => c ≠ ':')).all isHexDigitChar = true
  · by_cases hlen : (s.data.filter (fun c => c ≠ ':')).length = 32
    · have hb : ((s.data.filter (fun c => c ≠ ':')).all isHexDigitChar &&
          (s.data.filter (fun c => c ≠ ':')).length == 2 * 16) = true := by
        rw [hall, hlen]
        rfl
      rw [hb, if_pos rfl] at hcond
      refine ⟨iff_of_true (by rw [hcond]; rfl) ⟨hlen, hall⟩, ?_, hsplit⟩
      intro hfalse
      rw [hcond] at hfalse
      exact absurd hfalse (by simp)
    · have hb : ((s.data.filter (fun c => c ≠ ':')).all isHexDigitChar &&
          (s.data.filter (fun c => c ≠ ':')).length == 2 * 16) = false := by
        rw [hall]
        simpa using hlen
      rw [hb] at hcond
      simp only [Bool.false_eq_true, if_false] at hcond
      refine ⟨iff_of_false (by rw [hcond]; simp) (fun hr => hlen hr.1), fun _ => hcond, hsplit⟩
  · have hb : ((s.data.filter (fun c => c ≠ ':')).all isHexDigitChar &&
        (s.data.filter (fun c => c ≠ ':')).length == 2 * 16) = false := by
      rw [Bool.and_eq_false_iff]
      left
      simpa using hall
    rw [hb] at hcond
    simp only [Bool.false_eq_true, if_false] at hcond
    refine ⟨iff_of_false (by rw [hcond]; simp) (fun hr => hall hr.2), fun _ => hcond, hsplit⟩

/-- C7 witness: the compressed form "2001:db8::1" (9 hex characters after
removing colons) is rejected with the invalid-IPv6 error, and a full 8-group
address is accepted. -/
theorem claim_C7_parseIPv6_witness :
    parseIPv6 "2001:db8::1" TxErrors.CERTIFICATE_POOL_RELAY_INVALID_IPV6 =
      .error TxErrors.CERTIFICATE_POOL_RELAY_INVALID_IPV6 ∧
    (parseIPv6 "0011:2233:4455:6677:8899:aabb:ccdd:eeff" "e").isOk = true :=
  ⟨(claim_C7_parseIPv6 "2001:db8::1" TxErrors.CERTIFICATE_POOL_RELAY_INVALID_IPV6).2.1
      (by decide),
   ((claim_C7_parseIPv6 "0011:2233:4455:6677:8899:aabb:ccdd:eeff" "e").1).2
      ⟨by decide, by decide⟩⟩

/-! ## Claim C2 — `wrapRetryStillInCall` / `interact` -/

/-- C2: in a driven interaction, an `ERR_STILL_IN_CALL` status on the very first
exchange is retried exactly once — the second attempt's failure (any status,
`ERR_STILL_IN_CALL` included) is surfaced; any other failing status on the first
exchange is surfaced immediately without consuming another transport exchange;
and any failing status (including `ERR_STILL_IN_CALL`) on a non-first exchange is
surfaced immediately without retry. -/
theorem claim_C2_retryStillInCall {α : Type} (p : SendParams)
    (k : List Nat → Interaction α) (ts : List TransportEntry) :
    (∀ c, interact (.step p k) (.error ERR_STILL_IN_CALL :: .error c :: ts) =
      (.error (.statusCode c), ts))
    ∧ (∀ raw, p.expectedResponseLength = none →
        interact (.step p k) (.error ERR_STILL_IN_CALL :: .ok raw :: ts) =
          interactGo (k (stripRetcodeFromResponse raw)) false ts)
    ∧ (∀ c, c ≠ ERR_STILL_IN_CALL →
        interact (.step p k) (.error c :: ts) = (.error (.statusCode c), ts))
    ∧ (∀ (q : SendParams) (k2 : List Nat → Interaction α) (raw : List Nat) (c : Nat),
        p.expectedResponseLength = none →
        interact (.step p (fun _ => .step q k2)) (.ok raw :: .error c :: ts) =
          (.error (.statusCode c), ts)) := by
  refine ⟨fun c => rfl, ?_, ?_, ?_⟩
  · intro raw h
    simp [interact, interactGo, wrapRetryStillInCall, sendOnce, adaSend, retriableFailure, h]
  · intro c hc
    have hb : (c == ERR_STILL_IN_CALL) = false := beq_eq_false_iff_ne.mpr hc
    simp [interact, interactGo, wrapRetryStillInCall, sendOnce, adaSend,
      retriableFailure, hb]
  · intro q k2 raw c h
    simp [interact, interactGo, wrapRetryStillInCall, sendOnce, adaSend,
      retriableFailure, h]

/-- C2 witness: with a concrete two-step script the first exchange is retried
once and the second failure (even `ERR_STILL_IN_CALL` again) is surfaced; a
non-`ERR_STILL_IN_CALL` first failure and any second-exchange failure are
surfaced immediately. -/
theorem claim_C2_retryStillInCall_witness :
    interact (.step dummyParams (fun _ => .done (0 : Nat)))
      [.error ERR_STILL_IN_CALL, .error ERR_STILL_IN_CALL] =
      (.error (.statusCode ERR_STILL_IN_CALL), []) ∧
    dummyParams.expectedResponseLength = none ∧
    (6 : Nat) ≠ ERR_STILL_IN_CALL ∧
    interact (.step dummyParams (fun _ => .done (0 : Nat))) [.error 6] =
      (.error (.statusCode 6), []) ∧
    interact (.step dummyParams (fun _ => .step dummyParams (fun _ => .done (0 : Nat))))
      [.ok [9, 9, 9], .error ERR_STILL_IN_CALL] =
      (.error (.statusCode ERR_STILL_IN_CALL), []) :=
  ⟨(claim_C2_retryStillInCall dummyParams (fun _ => .done 0) []).1 ERR_STILL_IN_CALL,
   rfl, by decide,
   (claim_C2_retryStillInCall dummyParams (fun _ => .done 0) []).2.2.1 6 (by decide),
   (claim_C2_retryStillInCall dummyParams (fun _ => .done 0) []).2.2.2 dummyParams
     (fun _ => .done 0) [9, 9, 9] ERR_STILL_IN_CALL rfl⟩

/-! ## Claim C9 — response length assertion in `_send` -/

/-- C9: for every exchange whose request declares an expected response length,
`_send` first strips the trailing two-byte status suffix and then asserts that the
remaining payload length equals the expectation; a mismatch is the fatal
assertion failure, which the retry wrapper never retries. -/
theorem claim_C9_sendLengthAssertion (p : SendParams) (n : Nat) (raw : List Nat)
    (ts : List TransportEntry) (hp : p.expectedResponseLength = some n) :
    (adaSend (some n) (.ok raw) =
      if (stripRetcodeFromResponse raw).length = n then .ok (stripRetcodeFromResponse raw)
      else .error .assertionFailed)
    ∧ stripRetcodeFromResponse raw = raw.take (raw.length - 2)
    ∧ ((stripRetcodeFromResponse raw).length ≠ n →
        wrapRetryStillInCall p (.ok raw :: ts) = (.error .assertionFailed, ts)
        ∧ ∀ (k : List Nat → Interaction (List Nat)),
            interact (.step p k) (.ok raw :: ts) = (.error .assertionFailed, ts)) := by
  refine ⟨rfl, rfl, ?_⟩
  intro hne
  constructor
  · simp [wrapRetryStillInCall, sendOnce, adaSend, retriableFailure, hp, hne]
  · intro k
    simp [interact, interactGo, wrapRetryStillInCall, sendOnce, adaSend,
      retriableFailure, hp, hne]

/-- C9 witness: a response of raw length 3 strips to length 1, mismatching the
expected length 4; the assertion failure is surfaced without retry. -/
theorem claim_C9_sendLengthAssertion_witness :
    dummyParams4.expectedResponseLength = some 4 ∧
    (stripRetcodeFromResponse [1, 2, 3]).length ≠ 4 ∧
    wrapRetryStillInCall dummyParams4 [.ok [1, 2, 3]] =
      (.error .assertionFailed, []) ∧
    interact (.step dummyParams4 (fun r => .done r)) [.ok [1, 2, 3]] =
      (.error .assertionFailed, []) :=
  ⟨rfl, by decide,
   ((claim_C9_sendLengthAssertion dummyParams4 4 [1, 2, 3] [] rfl).2.2 (by decide)).1,
   ((claim_C9_sendLengthAssertion dummyParams4 4 [1, 2, 3] [] rfl).2.2 (by decide)).2
     (fun r => .done r)⟩

/-! ## Claim C8 — every operation starts with a fresh get-version exchange -/

/-- C8: each of the eight public device-facing operations (getSerial,
getExtendedPublicKeys, deriveAddress, showAddress, signTransaction,
signOperationalCertificate, signCIP36Vote, deriveNativeScriptHash) builds its
interaction so that the first yielded request is the get-version request, and
resuming after the first response continues with the remainder applied to the
version parsed from that very response — the version is obtained fresh inside
each call, never cached across operations. -/
theorem claim_C8_versionFirst :
    (∀ {Serial : Type} (getSerial : Version → Interaction Serial) (r : List Nat),
      (Ada_getSerial getSerial).firstRequest = some getVersionParams ∧
      (Ada_getSerial getSerial).resumeWith r = getSerial (parseVersionResponse r))
    ∧ (∀ {K : Type} (getExtendedPublicKeys : Version → List (List Nat) → Interaction K)
        (paths : List (List Nat)) (r : List Nat),
      (Ada_getExtendedPublicKeys getExtendedPublicKeys paths).firstRequest =
        some getVersionParams ∧
      (Ada_getExtendedPublicKeys getExtendedPublicKeys paths).resumeWith r =
        getExtendedPublicKeys (parseVersionResponse r) paths)
    ∧ (∀ {AddrParams DerivedAddr : Type}
        (deriveAddress : Version → AddrParams → Interaction DerivedAddr)
        (addressParams : AddrParams) (r : List Nat),
      (Ada_deriveAddress deriveAddress addressParams).firstRequest =
        some getVersionParams ∧
      (Ada_deriveAddress deriveAddress addressParams).resumeWith r =
        deriveAddress (parseVersionResponse r) addressParams)
    ∧ (∀ {AddrParams : Type} (showAddress : Version → AddrParams → Interaction Unit)
        (addressParams : AddrParams) (r : List Nat),
      (Ada_showAddress showAddress addressParams).firstRequest = some getVersionParams ∧
      (Ada_showAddress showAddress addressParams).resumeWith r =
        showAddress (parseVersionResponse r) addressParams)
    ∧ (∀ {SignReq SignedTx : Type}
        (signTransaction : Version → SignReq → Interaction SignedTx)
        (request : SignReq) (r : List Nat),
      (Ada_signTx signTransaction request).firstRequest = some getVersionParams ∧
      (Ada_signTx signTransaction request).resumeWith r =
        signTransaction (parseVersionResponse r) request)
    ∧ (∀ {OpCert OpCertSig : Type}
        (signOperationalCertificate : Version → OpCert → Interaction OpCertSig)
        (request : OpCert) (r : List Nat),
      (Ada_signOperationalCertificate signOperationalCertificate request).firstRequest =
        some getVersionParams ∧
      (Ada_signOperationalCertificate signOperationalCertificate request).resumeWith r =
        signOperationalCertificate (parseVersionResponse r) request)
    ∧ (∀ {CVoteReq CVoteSig : Type}
        (signCVote : Version → CVoteReq → Interaction CVoteSig)
        (request : CVoteReq) (r : List Nat),
      (Ada_signCIP36Vote signCVote request).firstRequest = some getVersionParams ∧
      (Ada_signCIP36Vote signCVote request).resumeWith r =
        signCVote (parseVersionResponse r) request)
    ∧ (∀ {Script Fmt ScriptHash : Type}
        (deriveNativeScriptHash : Version → Script → Fmt → Interaction ScriptHash)
        (script : Script) (displayFormat : Fmt) (r : List Nat),
      (Ada_deriveNativeScriptHash deriveNativeScriptHash script
          displayFormat).firstRequest = some getVersionParams ∧
      (Ada_deriveNativeScriptHash deriveNativeScriptHash script
          displayFormat).resumeWith r =
        deriveNativeScriptHash (parseVersionResponse r) script displayFormat) :=
  ⟨fun _ _ => ⟨rfl, rfl⟩,
   fun _ _ _ => ⟨rfl, rfl⟩,
   fun _ _ _ => ⟨rfl, rfl⟩,
   fun _ _ _ => ⟨rfl, rfl⟩,
   fun _ _ _ => ⟨rfl, rfl⟩,
   fun _ _ _ => ⟨rfl, rfl⟩,
   fun _ _ _ => ⟨rfl, rfl⟩,
   fun _ _ _ _ => ⟨rfl, rfl⟩⟩

/-! ## Claim C10 — singleton-list equivalence of the two entry points -/

/-- C10: `getExtendedPublicKey({path})` behaves exactly as the first element of
`getExtendedPublicKeys({paths: [path]})`: it is literally the plural call on the
singleton list followed by taking the first element, an invalid path makes both
fail with the same invalid-path error, a successful plural call makes the single
call succeed with the first returned key, and a failing plural call makes the
single call fail with the same error. -/
theorem claim_C10_singletonEquivalence {K : Type}
    (getExtendedPublicKeys : Version → List (List Nat) → Interaction (List K))
    (path : List Nat) (ts : List TransportEntry) :
    (getExtendedPublicKeyCall getExtendedPublicKeys path ts =
      (getExtendedPublicKeysCall getExtendedPublicKeys [path] ts).map (fun l => l.head?))
    ∧ (isValidPathB path = false →
        getExtendedPublicKeyCall getExtendedPublicKeys path ts =
          .error (.invalidData INVALID_PATH_REASON) ∧
        getExtendedPublicKeysCall getExtendedPublicKeys [path] ts =
          .error (.invalidData INVALID_PATH_REASON))
    ∧ (∀ l, getExtendedPublicKeysCall getExtendedPublicKeys [path] ts = .ok l →
        getExtendedPublicKeyCall getExtendedPublicKeys path ts = .ok l.head?)
    ∧ (∀ e, getExtendedPublicKeysCall getExtendedPublicKeys [path] ts = .error e →
        getExtendedPublicKeyCall getExtendedPublicKeys path ts = .error e) := by
  refine ⟨rfl, ?_, ?_, ?_⟩
  · intro hbad
    have hplural : getExtendedPublicKeysCall getExtendedPublicKeys [path] ts =
        .error (.invalidData INVALID_PATH_REASON) := by
      simp [getExtendedPublicKeysCall, mapExcept, parseBIP32PathPub, hbad]
    exact ⟨by simp [getExtendedPublicKeyCall, hplural, Except.map], hplural⟩
  · intro l h
    simp [getExtendedPublicKeyCall, h, Except.map]
  · intro e h
    simp [getExtendedPublicKeyCall, h, Except.map]

/-- C10 witness: with a device conversation that returns the key list [42] and a
transport yielding a valid four-byte version response, the plural call on the
singleton list returns [42] and the single call returns its first element; for
the invalid empty path both calls fail with the invalid-path error. -/
theorem claim_C10_singletonEquivalence_witness :
    isValidPathB [] = false ∧
    getExtendedPublicKeyCall (fun _ _ => Interaction.done ([42] : List Nat)) []
      [Except.ok [1, 0, 0, 0, 144, 0]] = .error (.invalidData INVALID_PATH_REASON) ∧
    getExtendedPublicKeysCall (fun _ _ => Interaction.done ([42] : List Nat)) [examplePath]
      [Except.ok [1, 0, 0, 0, 144, 0]] = .ok [42] ∧
    getExtendedPublicKeyCall (fun _ _ => Interaction.done ([42] : List Nat)) examplePath
      [Except.ok [1, 0, 0, 0, 144, 0]] = .ok (some 42) :=
  ⟨by decide,
   ((claim_C10_singletonEquivalence (fun _ _ => Interaction.done ([42] : List Nat)) []
      [Except.ok [1, 0, 0, 0, 144, 0]]).2.1 (by decide)).1,
   by decide,
   (claim_C10_singletonEquivalence (fun _ _ => Interaction.done ([42] : List Nat))
      examplePath [Except.ok [1, 0, 0, 0, 144, 0]]).2.2.1 [42] (by decide)⟩

/-! ## Chunking lemmas (`setTransaction`, `src/Ada.js`) -/

theorem setTxChunksGo_eq_nil (C L : Nat) (raw : List Nat) (i : Nat)
    (h : ¬ (i < L ∧ 0 < C)) : setTxChunksGo C L raw i = [] := by
  rw [setTxChunksGo]
  simp [h]

theorem setTxChunksGo_cons (C L : Nat) (raw : List Nat) (i : Nat)
    (h : i < L ∧ 0 < C) :
    setTxChunksGo C L raw i =
      { p1 := if i = 0 then P1_FIRST else if L ≤ i + C then P1_LAST else P1_NEXT,
        p2 := if L < C then P2_SINGLE_TX else P2_MULTI_TX,
        data := (raw.drop i).take C } :: setTxChunksGo C L raw (i + C) := by
  rw [setTxChunksGo]
  simp [h]

theorem setTxChunksGo_ne_nil (C L : Nat) (raw : List Nat) (i : Nat)
    (hlt : i < L) (hC : 0 < C) : setTxChunksGo C L raw i ≠ [] := by
  rw [setTxChunksGo_cons C L raw i ⟨hlt, hC⟩]
  simp

theorem setTxChunksGo_flatten (C : Nat) (hC : 0 < C) (raw : List Nat) :
    ∀ (fuel i : Nat), raw.length - i ≤ fuel →
      (List.map (fun c => c.data) (setTxChunksGo C raw.length raw i)).flatten =
        raw.drop i := by
  intro fuel
  induction fuel with
  | zero =>
    intro i hi
    rw [setTxChunksGo_eq_nil _ _ _ _ (by omega)]
    have hge : raw.length ≤ i := by omega
    simp [List.drop_eq_nil_of_le hge]
  | succ n ih =>
    intro i hi
    by_cases hlt : i < raw.length
    · rw [setTxChunksGo_cons _ _ _ _ ⟨hlt, hC⟩]
      simp only [List.map_cons, List.flatten_cons]
      rw [ih (i + C) (by omega)]
      rw [show raw.drop (i + C) = (raw.drop i).drop C from (List.drop_drop C i raw).symm]
      exact List.take_append_drop C (raw.drop i)
    · rw [setTxChunksGo_eq_nil _ _ _ _ (by omega)]
      simp [List.drop_eq_nil_of_le (by omega : raw.length ≤ i)]

theorem setTxChunksGo_length (C : Nat) (hC : 0 < C) (L : Nat) (raw : List Nat) :
    ∀ (fuel i : Nat), L - i ≤ fuel →
      (setTxChunksGo C L raw i).length = (L - i + C - 1) / C := by
  intro fuel
  induction fuel with
  | zero =>
    intro i hi
    rw [setTxChunksGo_eq_nil _ _ _ _ (by omega)]
    rw [show L - i = 0 from by omega]
    simp [Nat.div_eq_of_lt (show C - 1 < C from by omega)]
  | succ n ih =>
    intro i hi
    by_cases hlt : i < L
    · rw [setTxChunksGo_cons _ _ _ _ ⟨hlt, hC⟩]
      simp only [List.length_cons]
      rw [ih (i + C) (by omega)]
      rcases le_or_lt (L - i) C with hle | hgt
      · rw [show L - (i + C) = 0 from by omega]
        rw [Nat.div_eq_of_lt (by omega : 0 + C - 1 < C)]
        rw [show (L - i + C - 1) / C = 1 from Nat.div_eq_of_lt_le (by omega) (by omega)]
      · rw [show L - i + C - 1 = (L - (i + C) + C - 1) + C from by omega,
          Nat.add_div_right _ hC]
    · rw [setTxChunksGo_eq_nil _ _ _ _ (by omega)]
      rw [show L - i = 0 from by omega]
      simp [Nat.div_eq_of_lt (show C - 1 < C from by omega)]

theorem setTxChunksGo_p2 (C L : Nat) (raw : List Nat) :
    ∀ (fuel i : Nat), L - i ≤ fuel → ∀ c ∈ setTxChunksGo C L raw i,
      c.p2 = if L < C then P2_SINGLE_TX else P2_MULTI_TX := by
  intro fuel
  induction fuel with
  | zero =>
    intro i hi c hc
    by_cases h : i < L ∧ 0 < C
    · exact absurd h.1 (by omega)
    · rw [setTxChunksGo_eq_nil _ _ _ _ h] at hc
      cases hc
  | succ n ih =>
    intro i hi c hc
    by_cases h : i < L ∧ 0 < C
    · rw [setTxChunksGo_cons _ _ _ _ h] at hc
      rcases List.mem_cons.mp hc with rfl | hmem
      · rfl
      · exact ih (i + C) (by omega) c hmem
    · rw [setTxChunksGo_eq_nil _ _ _ _ h] at hc
      cases hc

theorem setTxChunksGo_getLast_p1 (C L : Nat) (raw : List Nat) (hC : 0 < C) :
    ∀ (fuel i : Nat), L - i ≤ fuel → 0 < i → i < L →
      ∀ c, (setTxChunksGo C L raw i).getLast? = some c → c.p1 = P1_LAST := by
  intro fuel
  induction fuel with
  | zero =>
    intro i hi h0 hlt
    exact absurd hlt (by omega)
  | succ n ih =>
    intro i hi h0 hlt c hc
    rw [setTxChunksGo_cons _ _ _ _ ⟨hlt, hC⟩] at hc
    by_cases hnext : i + C < L
    · have hne := setTxChunksGo_ne_nil C L raw (i + C) hnext hC
      obtain ⟨b, tl, hbt⟩ := List.exists_cons_of_ne_nil hne
      rw [hbt, List.getLast?_cons_cons] at hc
      exact ih (i + C) (by omega) (by omega) hnext c (by rw [hbt]; exact hc)
    · rw [setTxChunksGo_eq_nil _ _ _ _ (by omega)] at hc
      simp only [List.getLast?_singleton, Option.some.injEq] at hc
      rw [← hc]
      simp [show i ≠ 0 from by omega, show L ≤ i + C from by omega]

theorem setTxChunksGo_getD_p1 (C L : Nat) (raw : List Nat) (hC : 0 < C) :
    ∀ (fuel i : Nat), L - i ≤ fuel → 0 < i →
      ∀ j, j + 1 < (setTxChunksGo C L raw i).length →
        ((setTxChunksGo C L raw i).getD j dummyChunk).p1 = P1_NEXT := by
  intro fuel
  induction fuel with
  | zero =>
    intro i hi h0 j hj
    by_cases h : i < L ∧ 0 < C
    · exact absurd h.1 (by omega)
    · rw [setTxChunksGo_eq_nil _ _ _ _ h] at hj
      simp at hj
  | succ n ih =>
    intro i hi h0 j hj
    by_cases h : i < L
    · rw [setTxChunksGo_cons _ _ _ _ ⟨h, hC⟩] at hj ⊢
      cases j with
      | zero =>
        simp only [List.getD_cons_zero]
        have htail : setTxChunksGo C L raw (i + C) ≠ [] := by
          intro hempty
          rw [hempty] at hj
          simp at hj
        have hiC : i + C < L := by
          by_contra hge
          exact htail (setTxChunksGo_eq_nil _ _ _ _ (by omega))
        simp [show i ≠ 0 from by omega, show ¬ L ≤ i + C from by omega]
      | succ j' =>
        simp only [List.getD_cons_succ]
        simp only [List.length_cons] at hj
        exact ih (i + C) (by omega) (by omega) j' (by omega)
    · rw [setTxChunksGo_eq_nil _ _ _ _ (by omega)] at hj
      simp at hj

/-! ## Claim C3 — chunking round trip and chunk count -/

/-- C3 (amended): for every payload and positive maximum chunk size `C`, the
chunk payloads, concatenated in emission order, reproduce the payload exactly,
and the number of chunks is ⌈L / C⌉ — including L = 0, which produces zero
chunks (not one). -/
theorem claim_C3_chunkRoundTrip (C : Nat) (hC : 0 < C) (rawTx : List Nat) :
    (List.map (fun c => c.data) (setTransactionChunks C rawTx)).flatten = rawTx
    ∧ (setTransactionChunks C rawTx).length = (rawTx.length + C - 1) / C := by
  constructor
  · have h := setTxChunksGo_flatten C hC rawTx rawTx.length 0 (by omega)
    simpa [setTransactionChunks] using h
  · have h := setTxChunksGo_length C hC rawTx.length rawTx rawTx.length 0 (by omega)
    simpa [setTransactionChunks] using h

/-- C3 counterexample: the legacy `setTransaction` on the empty payload emits
zero chunks, not one — the loop body never runs when `rawTx.length = 0`. -/
theorem claim_C3_counterexample :
    (setTransaction ([] : List Nat)).length = 0 ∧
    ¬ (setTransaction ([] : List Nat)).length = 1 := by
  have h : setTransaction ([] : List Nat) = [] := by
    unfold setTransaction setTransactionChunks
    exact setTxChunksGo_eq_nil _ _ _ _ (by simp)
  rw [h]
  simp

/-- C3 witness: a three-byte payload with `C = 59` yields one chunk whose payload
is the original bytes. -/
theorem claim_C3_chunkRoundTrip_witness :
    (0 : Nat) < 59 ∧
    ((List.map (fun c => c.data) (setTransactionChunks 59 [1, 2, 3])).flatten = [1, 2, 3]
      ∧ (setTransactionChunks 59 [1, 2, 3]).length = ([1, 2, 3].length + 59 - 1) / 59) :=
  ⟨by decide, claim_C3_chunkRoundTrip 59 (by decide) [1, 2, 3]⟩

/-! ## Claim C4 — chunk positional markers -/

/-- C4 (amended): for every non-empty payload and positive chunk size `C`, the
first chunk carries `P1_FIRST`, the final chunk of a multi-chunk sequence carries
`P1_LAST`, every chunk in between carries `P1_NEXT`, and every chunk's second
marker is `P2_SINGLE_TX` exactly when the payload length is strictly below `C` —
a payload of exactly one full chunk (length = C) is emitted as a single chunk
marked `P2_MULTI_TX`. -/
theorem claim_C4_chunkMarkers (C : Nat) (hC : 0 < C) (rawTx : List Nat)
    (hraw : rawTx ≠ []) :
    ((setTransactionChunks C rawTx).headD dummyChunk).p1 = P1_FIRST
    ∧ (1 < (setTransactionChunks C rawTx).length →
        ∀ c, (setTransactionChunks C rawTx).getLast? = some c → c.p1 = P1_LAST)
    ∧ (∀ j, 0 < j → j + 1 < (setTransactionChunks C rawTx).length →
        ((setTransactionChunks C rawTx).getD j dummyChunk).p1 = P1_NEXT)
    ∧ (∀ c, c ∈ setTransactionChunks C rawTx →
        c.p2 = if rawTx.length < C then P2_SINGLE_TX else P2_MULTI_TX) := by
  have hlen0 : 0 < rawTx.length := List.length_pos.mpr hraw
  have hcons := setTxChunksGo_cons C rawTx.length rawTx 0 ⟨hlen0, hC⟩
  refine ⟨?_, ?_, ?_, ?_⟩
  · unfold setTransactionChunks
    rw [hcons]
    simp
  · intro h2 c hc
    unfold setTransactionChunks at h2 hc
    rw [hcons] at h2 hc
    have htail : setTxChunksGo C rawTx.length rawTx (0 + C) ≠ [] := by
      intro hempty
      rw [hempty] at h2
      simp at h2
    have hCL : 0 + C < rawTx.length := by
      by_contra hge
      exact htail (setTxChunksGo_eq_nil _ _ _ _ (by omega))
    obtain ⟨b, tl, hbt⟩ := List.exists_cons_of_ne_nil htail
    rw [hbt, List.getLast?_cons_cons] at hc
    exact setTxChunksGo_getLast_p1 C rawTx.length rawTx hC rawTx.length (0 + C)
      (by omega) (by omega) hCL c (by rw [hbt]; exact hc)
  · intro j hj0 hj
    unfold setTransactionChunks at hj ⊢
    rw [hcons] at hj ⊢
    obtain ⟨j', rfl⟩ : ∃ j', j = j' + 1 := ⟨j - 1, by omega⟩
    simp only [List.getD_cons_succ]
    simp only [List.length_cons] at hj
    exact setTxChunksGo_getD_p1 C rawTx.length rawTx hC rawTx.length (0 + C)
      (by omega) (by omega) j' (by omega)
  · intro c hc
    unfold setTransactionChunks at hc
    exact setTxChunksGo_p2 C rawTx.length rawTx rawTx.length 0 (by omega) c hc

/-- C4 counterexample: a payload of exactly the chunk size (59 bytes with
`C = 59`) fits in exactly one chunk, yet that chunk is emitted with
`P2 = P2_MULTI_TX`, not the single-frame marker — the source compares with
strict `<` (`rawTx.length < chunkSize`). -/
theorem claim_C4_counterexample :
    (setTransaction (List.replicate 59 0)).length = 1
    ∧ ((setTransaction (List.replicate 59 0)).headD dummyChunk).p2 = P2_MULTI_TX
    ∧ P2_MULTI_TX ≠ P2_SINGLE_TX := by
  have hset : setTransaction (List.replicate 59 0) =
      setTxChunksGo 59 59 (List.replicate 59 0) 0 := by
    unfold setTransaction setTransactionChunks MAX_APDU_SIZE OFFSET_CDATA
    norm_num
  have hcons := setTxChunksGo_cons 59 59 (List.replicate 59 (0 : Nat)) 0
    ⟨by omega, by omega⟩
  refine ⟨?_, ?_, by decide⟩
  · rw [hset]
    rw [setTxChunksGo_length 59 (by omega) 59 (List.replicate 59 0) 59 0 (by omega)]
  · rw [hset, hcons]
    simp

/-- C4 witness: a 130-byte payload with `C = 59` (three chunks) has its first
chunk marked FIRST, its last chunk marked LAST, its middle chunk marked NEXT, and
all chunks marked MULTI. -/
theorem claim_C4_chunkMarkers_witness :
    (0 : Nat) < 59 ∧ List.replicate 130 (0 : Nat) ≠ [] ∧
    (((setTransactionChunks 59 (List.replicate 130 0)).headD dummyChunk).p1 = P1_FIRST
    ∧ (1 < (setTransactionChunks 59 (List.replicate 130 0)).length →
        ∀ c, (setTransactionChunks 59 (List.replicate 130 0)).getLast? = some c →
          c.p1 = P1_LAST)
    ∧ (∀ j, 0 < j → j + 1 < (setTransactionChunks 59 (List.replicate 130 0)).length →
        ((setTransactionChunks 59 (List.replicate 130 0)).getD j dummyChunk).p1 = P1_NEXT)
    ∧ (∀ c, c ∈ setTransactionChunks 59 (List.replicate 130 0) →
        c.p2 = if (List.replicate 130 (0 : Nat)).length < 59 then P2_SINGLE_TX
          else P2_MULTI_TX)) :=
  ⟨by decide, by simp,
   claim_C4_chunkMarkers 59 (by decide) (List.replicate 130 0) (by simp)⟩

/-! ## `mapExcept` and `Except` lemmas -/

theorem exists_ok_of_isOk {ε α : Type} {x : Except ε α} (h : x.isOk = true) :
    ∃ a, x = .ok a := by
  cases x with
  | ok a => exact ⟨a, rfl⟩
  | error e => simp [Except.isOk, Except.toBool] at h

theorem mapExcept_ok_length {α β ε : Type} (f : α → Except ε β) :
    ∀ (l : List α) (ys : List β), mapExcept f l = .ok ys → ys.length = l.length := by
  intro l
  induction l with
  | nil =>
    intro ys h
    simp only [mapExcept] at h
    cases h
    rfl
  | cons x xs ih =>
    intro ys h
    simp only [mapExcept] at h
    cases hfx : f x with
    | error e => rw [hfx] at h; cases h
    | ok y =>
      rw [hfx] at h
      simp only [exceptBind_ok] at h
      cases hrest : mapExcept f xs with
      | error e => rw [hrest] at h; cases h
      | ok ys' =>
        rw [hrest] at h
        simp only [exceptBind_ok, exceptPure_eq, Except.ok.injEq] at h
        subst h
        simp [ih ys' hrest]

theorem mapExcept_mem {α β ε : Type} (f : α → Except ε β) :
    ∀ (l : List α) (ys : List β), mapExcept f l = .ok ys →
      ∀ c ∈ l, ∃ y ∈ ys, f c = .ok y := by
  intro l
  induction l with
  | nil =>
    intro ys _ c hc
    cases hc
  | cons x xs ih =>
    intro ys h c hc
    simp only [mapExcept] at h
    cases hfx : f x with
    | error e => rw [hfx] at h; cases h
    | ok y =>
      rw [hfx] at h
      simp only [exceptBind_ok] at h
      cases hrest : mapExcept f xs with
      | error e => rw [hrest] at h; cases h
      | ok ys' =>
        rw [hrest] at h
        simp only [exceptBind_ok, exceptPure_eq, Except.ok.injEq] at h
        subst h
        rcases List.mem_cons.mp hc with rfl | hmem
        · exact ⟨y, List.mem_cons_self y ys', hfx⟩
        · obtain ⟨y', hy'mem, hy'⟩ := ih ys' hrest c hmem
          exact ⟨y', List.mem_cons_of_mem y hy'mem, hy'⟩

theorem mapExcept_ok_of_forall {α β ε : Type} (f : α → Except ε β) :
    ∀ (l : List α), (∀ c ∈ l, (f c).isOk = true) → ∃ ys, mapExcept f l = .ok ys := by
  intro l
  induction l with
  | nil => exact fun _ => ⟨[], rfl⟩
  | cons x xs ih =>
    intro h
    obtain ⟨y, hy⟩ := exists_ok_of_isOk (h x (List.mem_cons_self x xs))
    obtain ⟨ys, hys⟩ := ih (fun c hc => h c (List.mem_cons_of_mem x hc))
    exact ⟨y :: ys, by simp [mapExcept, hy, hys]⟩

/-- A certificate with the pool-registration type tag parses (when it parses at
all) to a pool-registration certificate. -/
theorem parseCertificate_poolReg {cert : RawCertificate} {p : ParsedCertificate}
    (ht : cert.type = 3) (h : parseCertificate cert = .ok p) :
    p.isPoolRegistration = true := by
  obtain ⟨t, path, pkh, prp⟩ := cert
  simp only at ht
  subst ht
  cases prp with
  | none =>
    simp only [parseCertificate] at h
    cases h
  | some pp =>
    simp only [parseCertificate] at h
    cases hparse : parsePoolParams pp with
    | error e => rw [hparse] at h; cases h
    | ok pool =>
      rw [hparse] at h
      simp only [Except.map, Except.ok.injEq] at h
      subst h
      rfl

/-! ## Claim C1 — certificate combination rule -/

/-- C1 (amended): for a certificate list in which every certificate individually
parses, `parseCertificates` fails with the forbidden-combination error whenever
the list contains a stake-pool-registration certificate together with at least
one other certificate, and a list consisting of exactly one valid
stake-pool-registration certificate is accepted.  (When some certificate is
itself invalid, its own parse error is thrown first instead.) -/
theorem claim_C1_certificateCombination (certificates : List RawCertificate)
    (hall : ∀ cert ∈ certificates, (parseCertificate cert).isOk = true) :
    ((certificates.any (fun cert => cert.type == 3)) = true →
      1 < certificates.length →
      parseCertificates certificates = .error TxErrors.CERTIFICATES_COMBINATION_FORBIDDEN)
    ∧ (∀ cert p, certificates = [cert] → cert.type = 3 →
        parseCertificate cert = .ok p →
        parseCertificates certificates = .ok [p]) := by
  constructor
  · intro hany hlen
    obtain ⟨ps, hps⟩ := mapExcept_ok_of_forall parseCertificate certificates hall
    have hpslen : ps.length = certificates.length := mapExcept_ok_length _ _ _ hps
    obtain ⟨c, hcmem, hc3⟩ := List.any_eq_true.mp hany
    have hc3' : c.type = 3 := by simpa using hc3
    obtain ⟨p, hpmem, hpc⟩ := mapExcept_mem _ _ _ hps c hcmem
    have hpool : p.isPoolRegistration = true := parseCertificate_poolReg hc3' hpc
    have hallfalse : (ps.all (fun cert => !cert.isPoolRegistration)) = false := by
      cases hb : ps.all (fun cert => !cert.isPoolRegistration) with
      | false => rfl
      | true =>
        have hcontra := List.all_eq_true.mp hb p hpmem
        rw [hpool] at hcontra
        cases hcontra
    have hne1 : ps.length ≠ 1 := by omega
    simp only [parseCertificates, Precondition.checkIsArray, exceptBind_ok, hps]
    simp [Precondition.check, hallfalse, hne1]
  · intro cert p hceq ht hp
    subst hceq
    simp only [parseCertificates, Precondition.checkIsArray, exceptBind_ok, mapExcept, hp]
    simp [Precondition.check]

/-- C1 counterexample: a two-element list holding a valid pool-registration
certificate followed by an invalid stake-registration certificate (missing path)
does contain a pool-registration certificate together with another certificate,
yet `parseCertificates` throws the missing-path error of the broken certificate,
not the forbidden-combination error. -/
theorem claim_C1_counterexample :
    [poolRegCertExample, missingPathCertExample].length = 2
    ∧ ([poolRegCertExample, missingPathCertExample].any (fun c => c.type == 3)) = true
    ∧ parseCertificates [poolRegCertExample, missingPathCertExample] =
        .error TxErrors.CERTIFICATE_MISSING_PATH
    ∧ TxErrors.CERTIFICATE_MISSING_PATH ≠ TxErrors.CERTIFICATES_COMBINATION_FORBIDDEN :=
  ⟨rfl, rfl, by decide, by decide⟩

/-- C1 witness: a valid pool-registration certificate combined with a valid
stake-registration certificate is rejected with the forbidden-combination error,
and alone it is accepted. -/
theorem claim_C1_certificateCombination_witness :
    (∀ cert ∈ [poolRegCertExample, stakeRegCertExample],
      (parseCertificate cert).isOk = true)
    ∧ ([poolRegCertExample, stakeRegCertExample].any (fun cert => cert.type == 3)) = true
    ∧ 1 < [poolRegCertExample, stakeRegCertExample].length
    ∧ parseCertificates [poolRegCertExample, stakeRegCertExample] =
        .error TxErrors.CERTIFICATES_COMBINATION_FORBIDDEN
    ∧ parseCertificate poolRegCertExample =
        .ok (ParsedCertificate.stakePoolRegistration parsedPoolExample)
    ∧ parseCertificates [poolRegCertExample] =
        .ok [ParsedCertificate.stakePoolRegistration parsedPoolExample] :=
  ⟨by decide, by decide, by decide,
   (claim_C1_certificateCombination [poolRegCertExample, stakeRegCertExample]
      (by decide)).1 (by decide) (by decide),
   by decide,
   (claim_C1_certificateCombination [poolRegCertExample] (by decide)).2
      poolRegCertExample (ParsedCertificate.stakePoolRegistration parsedPoolExample)
      rfl rfl (by decide)⟩

/-! ## Claim C5 — withdrawals forbidden with a pool-registration certificate -/

/-- C5 (amended): for every transaction whose certificate list contains a
stake-pool-registration certificate and whose earlier validation stages (inputs,
outputs, fee, ttl, certificates) all pass, `validateTransaction` throws the
withdrawals-forbidden error whenever the withdrawals list is non-empty — it is a
pure validation function, so the failure occurs before any device exchange.
(When an earlier stage fails, its own error is thrown first instead.) -/
theorem claim_C5_withdrawalsForbidden (network : Network) (inputs : List RawInput)
    (outputs : List RawOutput) (feeStr : String) (ttlStr : Option String)
    (certificates : List RawCertificate) (withdrawals : List RawWithdrawal)
    (metadataHashHex : Option String) (validityIntervalStartStr : Option String)
    (hpool : (certificates.any (fun cert => cert.type == STAKE_POOL_REGISTRATION)) = true)
    (hw : withdrawals ≠ [])
    (hin : checkInputs true inputs = .ok ())
    (hout : checkOutputs network true outputs = .ok ())
    (hfee : Precondition.checkIsValidAdaAmount feeStr TxErrors.FEE_INVALID = .ok ())
    (httl : checkTtl ttlStr = .ok ())
    (hcerts : (parseCertificates certificates).isOk = true) :
    validateTransaction network inputs outputs feeStr ttlStr certificates withdrawals
      metadataHashHex validityIntervalStartStr =
      .error TxErrors.WITHDRAWALS_FORBIDDEN := by
  obtain ⟨ps, hps⟩ := exists_ok_of_isOk hcerts
  have hwlen : withdrawals.length > 0 := List.length_pos.mpr hw
  simp only [validateTransaction, Precondition.checkIsArray, exceptBind_ok, hpool,
    hin, hout, hfee, httl, hps]
  simp [hwlen]

/-- C5 counterexample: a transaction carrying a pool-registration certificate and
a non-empty withdrawal but an invalid fee string fails with the fee error, not
the withdrawals-forbidden error — earlier validation stages run first. -/
theorem claim_C5_counterexample :
    ([poolRegCertExample].any (fun cert => cert.type == STAKE_POOL_REGISTRATION)) = true
    ∧ [withdrawalExample] ≠ ([] : List RawWithdrawal)
    ∧ validateTransaction mainnetExample [] [] "x" none [poolRegCertExample]
        [withdrawalExample] none none = .error TxErrors.FEE_INVALID
    ∧ TxErrors.FEE_INVALID ≠ TxErrors.WITHDRAWALS_FORBIDDEN :=
  ⟨by decide, by decide, by decide, by decide⟩

/-- C5 witness: an otherwise valid transaction with one pool-registration
certificate and one withdrawal fails with the withdrawals-forbidden error. -/
theorem claim_C5_withdrawalsForbidden_witness :
    ([poolRegCertExample].any (fun cert => cert.type == STAKE_POOL_REGISTRATION)) = true
    ∧ [withdrawalExample] ≠ ([] : List RawWithdrawal)
    ∧ checkInputs true [] = .ok ()
    ∧ checkOutputs mainnetExample true [] = .ok ()
    ∧ Precondition.checkIsValidAdaAmount "42" TxErrors.FEE_INVALID = .ok ()
    ∧ checkTtl none = .ok ()
    ∧ (parseCertificates [poolRegCertExample]).isOk = true
    ∧ validateTransaction mainnetExample [] [] "42" none [poolRegCertExample]
        [withdrawalExample] none none = .error TxErrors.WITHDRAWALS_FORBIDDEN :=
  ⟨by decide, by decide, rfl, rfl, by decide, rfl, by decide,
   claim_C5_withdrawalsForbidden mainnetExample [] [] "42" none [poolRegCertExample]
     [withdrawalExample] none none (by decide) (by decide) rfl rfl (by decide) rfl
     (by decide)⟩
